import Mathlib

/-!
# Verification of the bug-hunter orchestration engine

A shallow embedding of the orchestration core of the `code-agent` repository:
the work-item store and its reducers (`bug_hunter.py`), the phase router
(`check_state`), the phase nodes, the checkpoint pointer logic
(`code_agent/checkpointing.py`), the `main` run loop, and the bounded-retry
TDD subworkflow (`code_agent/tdd_subgraph.py`).

Python dicts are embedded as association lists (`List (String × α)`) in
insertion order; Python dict operations (`{**a, **b}`, `d[k] = v`, `d.get(k)`,
`d.values()`, `d.keys()`, `len(d)`) are embedded by the `py*`/`d*` functions
below.  Calls into the external agent gateway (`run_agent`/`_run_agent`) are
embedded by passing the gateway's structured result (`Option ρ`, `none` =
"no structured result") as an explicit argument, or as an oracle indexed by
the number of calls already made.
-/

set_option autoImplicit false

namespace CodeAgent

universe u

variable {α : Type u} {β : Type u}

/-- First value stored under key `k`, like Python `d[k]` / `d.get(k)`
(Python dicts have unique keys; on such lists this is the value at `k`). -/
def dlookup (k : String) : List (String × α) → Option α
  | [] => none
  | (k', v) :: rest => if k' = k then some v else dlookup k rest

/-- The keys of the dict, in insertion order (Python `d.keys()`). -/
def dkeys (d : List (String × α)) : List String :=
  d.map Prod.fst

/-- The values of the dict, in insertion order (Python `d.values()`). -/
def dvalues (d : List (String × α)) : List α :=
  d.map Prod.snd

/-- A well-formed Python dict has no duplicate keys. -/
def NodupKeys (d : List (String × α)) : Prop :=
  (dkeys d).Nodup

instance decNodupKeys (d : List (String × α)) : Decidable (NodupKeys d) :=
  inferInstanceAs (Decidable (dkeys d).Nodup)

/-- An entry of `existing` after `{**existing, **new}`: its value is replaced
when `new` also binds the key. -/
def pyUpdEntry (new : List (String × α)) (p : String × α) : String × α :=
  match dlookup p.1 new with
  | some v => (p.1, v)
  | none => p

/-- Whether an entry's key is absent from dict `d`. -/
def keyAbsent (d : List (String × α)) (p : String × α) : Bool :=
  (dlookup p.1 d).isNone

/-- Python `{**existing, **new}`: the entries of `existing` in order, with the
value replaced by `new`'s value when `new` also binds the key, followed by the
entries of `new` whose key does not occur in `existing`. -/
def pyDictMerge (existing new : List (String × α)) : List (String × α) :=
  existing.map (pyUpdEntry new) ++ new.filter (keyAbsent existing)

/-- The first defined of two optional values (used to state which side a
merge prefers). -/
def firstSome (a b : Option α) : Option α :=
  match a with
  | some v => some v
  | none => b

/-- Python `d[k] = v` on a dict: update in place when the key exists,
otherwise append the new binding. -/
def pyInsert (d : List (String × α)) (k : String) (v : α) : List (String × α) :=
  if (dlookup k d).isSome then
    d.map fun p => if p.1 = k then (k, v) else p
  else
    d ++ [(k, v)]

/-! ## Data model (`code_agent/tracking.py`) -/

/-- Source `Bug.severity` literal. -/
inductive Severity
  | HIGH
  | MEDIUM
  | LOW
deriving DecidableEq, Repr

/-- Source `Bug.status` literal. -/
inductive BugStatus
  | POTENTIAL
  | IN_ANALYSIS
  | PREPARED_FOR_FIX
  | READY_FOR_REVIEW
  | SOLVED
  | DISCARDED
deriving DecidableEq, Repr

/-- Source `Bug.reproducibility_approach` literal. -/
inductive ReproApproach
  | UNIT_TEST
  | MANUAL
  | INTEGRATION_TEST
deriving DecidableEq, Repr

/-- Source `Bug.reproducibility_chance` literal. -/
inductive ReproChance
  | EASY
  | MEDIUM
  | HARD
deriving DecidableEq, Repr

/-- The `Bug` pydantic model.  The `datetime` timestamps are embedded as
natural numbers (their exact representation is irrelevant here); the pydantic
`default_factory=datetime.now` is embedded by passing the current time `now`
into the functions that construct records. -/
structure Bug where
  id : String
  short_description : String
  severity : Severity
  status : BugStatus
  relevant_files : List String
  reproducibility_chance : Option ReproChance := none
  reproducibility_approach : Option ReproApproach := none
  created_at : Nat := 0
  updated_at : Nat := 0
deriving DecidableEq, Repr

/-- Source `BugFix.status` literal. -/
inductive FixStatus
  | IN_REVIEW
  | REJECTED
  | FINISHED
deriving DecidableEq, Repr

/-- The `BugFix` pydantic model. -/
structure BugFix where
  bug_id : String
  status : FixStatus
  rejection_reason : Option String := none
  created_at : Nat := 0
  updated_at : Nat := 0
  manual_adjustments : Option String := none
deriving DecidableEq, Repr

/-! ## State reducers (`bug_hunter.py`, lines 36-47) -/

/-- Source `merge_bugs(existing, new) = {**existing, **new}`. -/
def merge_bugs (existing new : List (String × Bug)) : List (String × Bug) :=
  pyDictMerge existing new

/-- Source `merge_fixes(existing, new) = {**existing, **new}`. -/
def merge_fixes (existing new : List (String × BugFix)) : List (String × BugFix) :=
  pyDictMerge existing new

/-- Source `replace_entrypoints(existing, new) = new if new is not None else existing`. -/
def replace_entrypoints (existing : List String) (new : Option (List String)) :
    List String :=
  match new with
  | some l => l
  | none => existing

/-- The `BugHunterState` graph state.  The `config` field of the Python state
holds only filesystem locations consumed by I/O helpers and prompt text, so it
does not appear in the pure state. -/
structure BugHunterState where
  messages : List String
  bugs : List (String × Bug)
  fixes : List (String × BugFix)
  entrypoints : List String
deriving DecidableEq, Repr

/-! ## Phase router (`bug_hunter.check_state`, lines 351-384) -/

/-- Source `check_state`: the top-level router.  Returns the name of the next node,
translating each list-comprehension filter and each truthiness test
(`if reviewable_bugs:`) directly. -/
def check_state (state : BugHunterState) : String :=
  let bugs := state.bugs
  let entrypoints := state.entrypoints
  let reviewable_bugs := (dvalues bugs).filter fun b =>
    b.status = BugStatus.READY_FOR_REVIEW
  if ¬ reviewable_bugs.isEmpty then "review_fix_node"
  else
    let reproduced_bugs := (dvalues bugs).filter fun b =>
      b.status = BugStatus.PREPARED_FOR_FIX ∧
        b.reproducibility_approach = some ReproApproach.UNIT_TEST
    if ¬ reproduced_bugs.isEmpty then "fix_unit_test_bug_node"
    else
      let unit_test_bugs := (dvalues bugs).filter fun b =>
        b.status = BugStatus.IN_ANALYSIS ∧
          b.reproducibility_approach = some ReproApproach.UNIT_TEST
      if ¬ unit_test_bugs.isEmpty then "reproduce_unit_test_bug_node"
      else
        let high_severity_bugs := (dvalues bugs).filter fun b =>
          b.status = BugStatus.POTENTIAL ∧ b.severity = Severity.HIGH
        if ¬ high_severity_bugs.isEmpty then "classify_bug_candidate_node"
        else if ¬ entrypoints.isEmpty then "scout_node"
        else "suggest_entrypoint_node"

/-- The router exactly as the claim words it (tier 1 additionally demands a
`UNIT_TEST` reproducibility approach).  Stated from the claim's words, only to
be compared against `check_state`. -/
def check_state_claimed (state : BugHunterState) : String :=
  if (dvalues state.bugs).any (fun b =>
      b.status = BugStatus.READY_FOR_REVIEW ∧
        b.reproducibility_approach = some ReproApproach.UNIT_TEST) then
    "review_fix_node"
  else if (dvalues state.bugs).any (fun b =>
      b.status = BugStatus.PREPARED_FOR_FIX ∧
        b.reproducibility_approach = some ReproApproach.UNIT_TEST) then
    "fix_unit_test_bug_node"
  else if (dvalues state.bugs).any (fun b =>
      b.status = BugStatus.IN_ANALYSIS ∧
        b.reproducibility_approach = some ReproApproach.UNIT_TEST) then
    "reproduce_unit_test_bug_node"
  else if (dvalues state.bugs).any (fun b =>
      b.status = BugStatus.POTENTIAL ∧ b.severity = Severity.HIGH) then
    "classify_bug_candidate_node"
  else if ¬ state.entrypoints.isEmpty then "scout_node"
  else "suggest_entrypoint_node"

/-! ## Phase executor / gateway (`bug_hunter.run_agent`, lines 99-132, and
`code_agent/tdd_subgraph._run_agent`, lines 199-226)

A gateway response stream is a list of messages; a message either carries a
structured output (`some r`) or not (`none`).  A gateway is an oracle mapping
the index of a request to the response stream it would produce for that
request; an executor that issues only one request reads index `0` only. -/

/-- The message scan inside the `async with` block: return the structured
output of the first message that carries one, else `None`. -/
def scanResponse {ρ : Type u} : List (Option ρ) → Option ρ
  | [] => none
  | some r :: _ => some r
  | none :: rest => scanResponse rest

/-- Source `bug_hunter.run_agent`: opens a client, issues exactly one request
(`client.query`), and scans the messages of that single response stream.
The prompt, schema, tool list and working directory do not affect the
control flow and are omitted. -/
def run_agent {ρ : Type u} (gateway : Nat → List (Option ρ)) : Option ρ :=
  scanResponse (gateway 0)

/-- Source `code_agent.tdd_subgraph._run_agent`: identical control flow, with the
structured output read off the first `ResultMessage` carrying one. -/
def tdd_run_agent {ρ : Type u} (gateway : Nat → List (Option ρ)) : Option ρ :=
  scanResponse (gateway 0)

/-- Modelled from the spec: an executor that, on "no structured result",
"retries the same request up to a small fixed bound"; `bound` is the total
number of requests it may issue (so `bound - 1` retries), and it reports
failure only once all of them produced no structured result.  No such
executor exists in the source; this definition follows the spec's words, to
be compared with `run_agent`. -/
def run_agent_with_retries {ρ : Type u} :
    Nat → (Nat → List (Option ρ)) → Nat → Option ρ
  | 0, _, _ => none
  | bound + 1, gateway, i =>
    match scanResponse (gateway i) with
    | some r => some r
    | none => run_agent_with_retries bound gateway (i + 1)

/-! ## Partial state updates

A LangGraph node returns a partial update (a Python dict with a subset of the
state keys); `none` in a field means the key is absent from the returned dict.
The annotated reducers then combine the update with the previous state. -/

/-- A partial update of `BugHunterState` as returned by a phase node. -/
structure NodeUpdate where
  messages : List String := []
  bugs : Option (List (String × Bug)) := none
  fixes : Option (List (String × BugFix)) := none
  entrypoints : Option (List String) := none
deriving DecidableEq, Repr

/-- Application of a partial update through the annotated reducers:
`messages` concatenates (`lambda old, new: old + new`), `bugs`/`fixes` merge
via `merge_bugs`/`merge_fixes`, `entrypoints` via `replace_entrypoints`; a key
absent from the update leaves the channel untouched. -/
def applyUpdate (s : BugHunterState) (u : NodeUpdate) : BugHunterState :=
  { messages := s.messages ++ u.messages
    bugs :=
      match u.bugs with
      | some nb => merge_bugs s.bugs nb
      | none => s.bugs
    fixes :=
      match u.fixes with
      | some nf => merge_fixes s.fixes nf
      | none => s.fixes
    entrypoints :=
      match u.entrypoints with
      | some l => replace_entrypoints s.entrypoints (some l)
      | none => s.entrypoints }

/-! ## Structured output schemas of the top-level phases (`bug_hunter.py`) -/

/-- Source `ClassifyResult`. -/
structure ClassifyResult where
  reproducibility_approach : ReproApproach
  reproducibility_chance : ReproChance
  reasoning : String
deriving DecidableEq, Repr

/-- Source `FixResult.status` literal (`READY_FOR_REVIEW` or `DISCARDED`). -/
inductive FixOutcome
  | READY_FOR_REVIEW
  | DISCARDED
deriving DecidableEq, Repr

/-- The `Bug.status` value written by the fix node for a `FixResult.status`. -/
def FixOutcome.toBugStatus : FixOutcome → BugStatus
  | .READY_FOR_REVIEW => BugStatus.READY_FOR_REVIEW
  | .DISCARDED => BugStatus.DISCARDED

/-- Source `FixResult`. -/
structure FixResult where
  status : FixOutcome
  fix_description : String
  notes : String
deriving DecidableEq, Repr

/-- Source `bug_hunter.ReviewResult.status` literal (`SOLVED` or `PREPARED_FOR_FIX`). -/
inductive ReviewOutcome
  | SOLVED
  | PREPARED_FOR_FIX
deriving DecidableEq, Repr

/-- The `Bug.status` value written by the review node for a review status. -/
def ReviewOutcome.toBugStatus : ReviewOutcome → BugStatus
  | .SOLVED => BugStatus.SOLVED
  | .PREPARED_FOR_FIX => BugStatus.PREPARED_FOR_FIX

/-- Source `bug_hunter.ReviewResult`. -/
structure HunterReviewResult where
  status : ReviewOutcome
  rejection_reason : Option String
  notes : String
deriving DecidableEq, Repr

/-- Source `ScoutBug`. -/
structure ScoutBug where
  short_description : String
  severity : Severity
  relevant_files : List String
  details : String
deriving DecidableEq, Repr

/-- Source `ScoutResult`. -/
structure ScoutResult where
  bugs : List ScoutBug
  exploration_summary : String
deriving DecidableEq, Repr

/-- Rendering of a `ReproApproach` literal, for message strings. -/
def ReproApproach.str : ReproApproach → String
  | .UNIT_TEST => "UNIT_TEST"
  | .MANUAL => "MANUAL"
  | .INTEGRATION_TEST => "INTEGRATION_TEST"

/-- Rendering of a `ReproChance` literal, for message strings. -/
def ReproChance.str : ReproChance → String
  | .EASY => "EASY"
  | .MEDIUM => "MEDIUM"
  | .HARD => "HARD"

/-- Rendering of a `FixOutcome` literal, for message strings. -/
def FixOutcome.str : FixOutcome → String
  | .READY_FOR_REVIEW => "READY_FOR_REVIEW"
  | .DISCARDED => "DISCARDED"

/-- Rendering of a `ReviewOutcome` literal, for message strings. -/
def ReviewOutcome.str : ReviewOutcome → String
  | .SOLVED => "SOLVED"
  | .PREPARED_FOR_FIX => "PREPARED_FOR_FIX"

/-! ## Top-level phase nodes (`bug_hunter.py`)

Each node takes the gateway's structured result for its single agent call as
an explicit `Option` argument and the current wall-clock time `now` (consumed
by the pydantic `default_factory=datetime.now` defaults).  A node whose Python
body would raise (indexing `[0]` into an empty filter result) returns `none`.
Writing of the free-text detail files is I/O outside the graph state and is
not part of the update. -/

/-- Source `classify_bug_candidate_node`, lines 285-348. -/
def classify_bug_candidate_node (state : BugHunterState) (now : Nat)
    (result : Option ClassifyResult) : NodeUpdate :=
  let bugs := state.bugs
  let potential_bugs := (dvalues bugs).filter fun b =>
    b.status = BugStatus.POTENTIAL ∧ b.severity = Severity.HIGH
  match potential_bugs with
  | [] => { messages := ["No potential high severity bugs found."] }
  | chosen_bug :: _ =>
    match result with
    | some r =>
      let updated_bug : Bug :=
        { id := chosen_bug.id
          short_description := chosen_bug.short_description
          severity := chosen_bug.severity
          status := BugStatus.IN_ANALYSIS
          relevant_files := chosen_bug.relevant_files
          reproducibility_approach := some r.reproducibility_approach
          reproducibility_chance := some r.reproducibility_chance
          created_at := chosen_bug.created_at
          updated_at := now }
      { messages := [chosen_bug.id ++ " classified as " ++
          r.reproducibility_approach.str ++ "/" ++ r.reproducibility_chance.str]
        bugs := some [(chosen_bug.id, updated_bug)] }
    | none => { messages := ["Failed to classify bug."] }

/-- Source `fix_unit_test_bug_node`, lines 479-563.  `none` when
`prepared_bugs[0]` would raise `IndexError`. -/
def fix_unit_test_bug_node (state : BugHunterState) (now : Nat)
    (result : Option FixResult) : Option NodeUpdate :=
  let bugs := state.bugs
  let prepared_bugs := (dvalues bugs).filter fun b =>
    b.status = BugStatus.PREPARED_FOR_FIX ∧
      b.reproducibility_approach = some ReproApproach.UNIT_TEST
  match prepared_bugs with
  | [] => none
  | bug :: _ =>
    match result with
    | some r =>
      let updated_bug : Bug :=
        { id := bug.id
          short_description := bug.short_description
          severity := bug.severity
          status := r.status.toBugStatus
          relevant_files := bug.relevant_files
          reproducibility_approach := bug.reproducibility_approach
          reproducibility_chance := bug.reproducibility_chance
          created_at := bug.created_at
          updated_at := now }
      let base : NodeUpdate :=
        { messages := [bug.id ++ " fix: " ++ r.status.str]
          bugs := some [(bug.id, updated_bug)] }
      if r.status = FixOutcome.READY_FOR_REVIEW then
        some { base with fixes := some [(bug.id,
            { bug_id := bug.id
              status := FixStatus.IN_REVIEW
              created_at := now
              updated_at := now })] }
      else some base
    | none => some { messages := ["Failed to fix bug."] }

/-- Source `review_fix_node`, lines 635-725.  `none` when `reviewable_bugs[0]`
would raise `IndexError`. -/
def review_fix_node (state : BugHunterState) (now : Nat)
    (result : Option HunterReviewResult) : Option NodeUpdate :=
  let bugs := state.bugs
  let fixes := state.fixes
  let reviewable_bugs := (dvalues bugs).filter fun b =>
    b.status = BugStatus.READY_FOR_REVIEW ∧
      b.reproducibility_approach = some ReproApproach.UNIT_TEST
  match reviewable_bugs with
  | [] => none
  | bug :: _ =>
    match result with
    | some r =>
      let updated_bug : Bug :=
        { id := bug.id
          short_description := bug.short_description
          severity := bug.severity
          status := r.status.toBugStatus
          relevant_files := bug.relevant_files
          reproducibility_approach := bug.reproducibility_approach
          reproducibility_chance := bug.reproducibility_chance
          created_at := bug.created_at
          updated_at := now }
      let base : NodeUpdate :=
        { messages := [bug.id ++ " review: " ++ r.status.str]
          bugs := some [(bug.id, updated_bug)] }
      some (match dlookup bug.id fixes with
      | some existing_fix =>
        let updated_fix : BugFix :=
          if r.status = ReviewOutcome.SOLVED then
            { bug_id := existing_fix.bug_id
              status := FixStatus.FINISHED
              rejection_reason := existing_fix.rejection_reason
              created_at := existing_fix.created_at
              updated_at := now
              manual_adjustments := existing_fix.manual_adjustments }
          else
            { bug_id := existing_fix.bug_id
              status := FixStatus.REJECTED
              rejection_reason := r.rejection_reason
              created_at := existing_fix.created_at
              updated_at := now
              manual_adjustments := existing_fix.manual_adjustments }
        { base with fixes := some [(bug.id, updated_fix)] }
      | none => base)
    | none => some { messages := ["Review completed."] }

/-! ## Scout phase (`bug_hunter.scout_node`, lines 205-282)

The identifier arithmetic of the scout loop works on strings:
`int(b.replace("BUG-", ""))` to read the number of an existing key and
`f"BUG-{next_id:03}"` to render a new one.  The pieces are embedded at the
character-list level. -/

/-- Source `s.replace("BUG-", "")` on the character list of `s`: remove every
(left-to-right, non-overlapping) occurrence of `BUG-`. -/
def removeBUG : List Char → List Char
  | 'B' :: 'U' :: 'G' :: '-' :: rest => removeBUG rest
  | c :: rest => c :: removeBUG rest
  | [] => []

/-- The decimal digit character for `d` (defined for `d ≤ 9`). -/
def digitChar (d : Nat) : Char :=
  match d with
  | 0 => '0' | 1 => '1' | 2 => '2' | 3 => '3' | 4 => '4'
  | 5 => '5' | 6 => '6' | 7 => '7' | 8 => '8' | 9 => '9'
  | _ => '*'

/-- Standard decimal rendering of a natural number, most significant digit
first. -/
def natDigits (n : Nat) : List Char :=
  if h : n < 10 then [digitChar n]
  else natDigits (n / 10) ++ [digitChar (n % 10)]
decreasing_by
  exact Nat.div_lt_self (Nat.lt_of_lt_of_le (by omega) (Nat.le_of_not_lt h))
    (by omega)

/-- Python format spec `:03`: pad on the left with `0` to width 3. -/
def pad3 (s : List Char) : List Char :=
  if s.length < 3 then List.replicate (3 - s.length) '0' ++ s else s

/-- Source `f"BUG-{n:03}"`. -/
def mkBugId (n : Nat) : String :=
  String.mk ('B' :: 'U' :: 'G' :: '-' :: pad3 (natDigits n))

/-- Helper of `parseDigits`: accumulate decimal digits, failing on any
non-digit character. -/
def parseDigitsAux : Nat → List Char → Option Nat
  | acc, [] => some acc
  | acc, c :: cs =>
    if '0' ≤ c ∧ c ≤ '9' then
      parseDigitsAux (acc * 10 + (c.toNat - 48)) cs
    else none

/-- Python `int(s)` restricted to plain digit strings (the shape the
identifier scheme produces): the value of a non-empty digit string, `none`
otherwise. -/
def parseDigits (l : List Char) : Option Nat :=
  match l with
  | [] => none
  | _ => parseDigitsAux 0 l

/-- Source `int(b.replace("BUG-", ""))` as a total function: the numeric part of a
bug key, or `none` where Python would raise `ValueError`. -/
def pyKeyNum (k : String) : Option Nat :=
  parseDigits (removeBUG k.data)

/-- The list comprehension `[int(b.replace("BUG-", "")) for b in bugs.keys()]`:
all keys parsed, or `none` as soon as one key fails (Python raises there). -/
def mapParse : List String → Option (List Nat)
  | [] => some []
  | k :: ks =>
    match pyKeyNum k with
    | none => none
    | some n => (mapParse ks).map fun l => n :: l

/-- Source `max(l, default=0)` over natural numbers. -/
def maxOrDefault (l : List Nat) : Nat :=
  l.foldl max 0

/-- A fresh `Bug` record built by the scout loop from a `ScoutBug`. -/
def mkScoutedBug (bug_id : String) (sb : ScoutBug) (now : Nat) : Bug :=
  { id := bug_id
    short_description := sb.short_description
    severity := sb.severity
    status := BugStatus.POTENTIAL
    relevant_files := sb.relevant_files
    created_at := now
    updated_at := now }

/-- The `for scout_bug in result.bugs` loop of `scout_node`: each iteration
recomputes `max(...) + 1 + len(new_bugs)`, renders the id and inserts the new
record into `new_bugs`.  `none` when a key of `bugs` fails to parse. -/
def scoutLoop (bugs : List (String × Bug)) (now : Nat) :
    List (String × Bug) → List ScoutBug → Option (List (String × Bug))
  | new_bugs, [] => some new_bugs
  | new_bugs, sb :: rest =>
    match mapParse (dkeys bugs) with
    | none => none
    | some ns =>
      let next_id := maxOrDefault ns + 1 + new_bugs.length
      let bug_id := mkBugId next_id
      scoutLoop bugs now (pyInsert new_bugs bug_id (mkScoutedBug bug_id sb now))
        rest

/-- Source `scout_node`: pops the head of the entrypoint queue, runs the gateway and
records the returned bugs.  `none` models the `ValueError` raised when an
existing key does not parse. -/
def scout_node (state : BugHunterState) (now : Nat)
    (result : Option ScoutResult) : Option NodeUpdate :=
  let bugs := state.bugs
  match state.entrypoints with
  | [] => some { messages := ["No entrypoints to scout."] }
  | _ :: remaining =>
    match result with
    | some r =>
      match scoutLoop bugs now [] r.bugs with
      | none => none
      | some new_bugs =>
        some { messages := [r.exploration_summary]
               bugs := some new_bugs
               entrypoints := some remaining }
    | none =>
      some { messages := ["No bugs found."]
             entrypoints := some remaining }

/-! ## Bounded-retry TDD subworkflow (`code_agent/tdd_subgraph.py`)

The graph has static edges `START → write_tests` and `implement → refactor`,
and conditional edges `after_write_tests`, `after_refactor`, `after_review`.
`max_review_attempts` and `review_attempts` are embedded as `Nat`: the counter
only ever takes non-negative values, and the configured maximum is
non-negative in every configuration the repository builds (default `3`). -/

/-- Source `TaskType`. -/
inductive TaskType
  | BUG_FIX
  | FEATURE
  | REFACTOR
deriving DecidableEq, Repr

/-- Source `TDDConfig` (the prompt-only fields `worktree_path`, `description`,
`details`, `relevant_files` are omitted: they never influence control flow). -/
structure TDDConfig where
  task_id : String
  task_type : TaskType
  max_review_attempts : Nat := 3
deriving DecidableEq, Repr

/-- Terminal statuses of the subworkflow (`TDDResult.status`). -/
inductive TDDStatus
  | SUCCESS
  | DISCARDED
  | MAX_ATTEMPTS_REACHED
deriving DecidableEq, Repr

/-- The `phase` literal stored in `TDDState` (data only; routing follows the
graph edges, not this field). -/
inductive TDDPhase
  | write_tests
  | implement
  | refactor
  | review
  | done
deriving DecidableEq, Repr

/-- Source `TDDState`. -/
structure TDDState where
  config : TDDConfig
  phase : TDDPhase
  test_file_path : Option String
  implementation_notes : String
  review_attempts : Nat
  status : Option TDDStatus
  rejection_history : List String
deriving DecidableEq, Repr

/-- Source `WriteTestsResult.status` literal. -/
inductive WriteTestsOutcome
  | PREPARED_FOR_FIX
  | DISCARDED
deriving DecidableEq, Repr

/-- Source `WriteTestsResult`. -/
structure WriteTestsResult where
  status : WriteTestsOutcome
  test_file_path : Option String
  notes : String
deriving DecidableEq, Repr

/-- Source `ImplementResult.status` literal. -/
inductive ImplementOutcome
  | READY_FOR_REVIEW
  | DISCARDED
deriving DecidableEq, Repr

/-- Source `ImplementResult`. -/
structure ImplementResult where
  status : ImplementOutcome
  notes : String
deriving DecidableEq, Repr

/-- Source `tdd_subgraph.RefactorResult`. -/
structure TDDRefactorResult where
  refactored : Bool
  notes : String
deriving DecidableEq, Repr

/-- Source `tdd_subgraph.ReviewResult.status` literal. -/
inductive TDDReviewOutcome
  | SUCCESS
  | REJECTED
deriving DecidableEq, Repr

/-- Source `tdd_subgraph.ReviewResult`. -/
structure TDDReviewResult where
  status : TDDReviewOutcome
  rejection_reason : Option String
  notes : String
deriving DecidableEq, Repr

/-- Python `a or b` for an optional string `a`: `b` when `a` is `None` or
empty. -/
def pyOrStr (a : Option String) (b : String) : String :=
  match a with
  | some s => if s = "" then b else s
  | none => b

/-- Source `write_tests_node` (lines 259-282) applied to the state (the dict a node
returns overwrites exactly the keys it contains; untouched fields keep their
previous value). -/
def write_tests_node (s : TDDState) (result : Option WriteTestsResult) :
    TDDState :=
  match result with
  | some r =>
    let status : Option TDDStatus :=
      if r.status = WriteTestsOutcome.DISCARDED then some TDDStatus.DISCARDED
      else none
    { s with
      phase := if status = none then TDDPhase.implement else TDDPhase.done
      test_file_path := r.test_file_path
      implementation_notes := r.notes
      status := status }
  | none =>
    { s with
      phase := TDDPhase.done
      status := some TDDStatus.DISCARDED
      implementation_notes := "Failed to write tests." }

/-- Source `implement_node` (lines 285-315). -/
def implement_node (s : TDDState) (result : Option ImplementResult) :
    TDDState :=
  match result with
  | some r =>
    if r.status = ImplementOutcome.DISCARDED then
      { s with
        phase := TDDPhase.done
        status := some TDDStatus.DISCARDED
        implementation_notes :=
          s.implementation_notes ++ "\n\nImplement: " ++ r.notes }
    else
      { s with
        phase := TDDPhase.refactor
        implementation_notes :=
          s.implementation_notes ++ "\n\nImplement: " ++ r.notes }
  | none =>
    { s with
      phase := TDDPhase.done
      status := some TDDStatus.DISCARDED
      implementation_notes := "Failed to implement." }

/-- Source `refactor_node` (lines 318-342); for task type `REFACTOR` the template is
`None` and the node returns before calling the gateway. -/
def refactor_node (s : TDDState) (result : Option TDDRefactorResult) :
    TDDState :=
  if s.config.task_type = TaskType.REFACTOR then
    { s with phase := TDDPhase.review }
  else
    match result with
    | some r =>
      { s with
        phase := TDDPhase.review
        implementation_notes :=
          s.implementation_notes ++ "\n\nRefactor: " ++ r.notes }
    | none => { s with phase := TDDPhase.review }

/-- Source `review_node` (lines 345-385). -/
def review_node (s : TDDState) (result : Option TDDReviewResult) : TDDState :=
  let new_attempt := s.review_attempts + 1
  match result with
  | some r =>
    if r.status = TDDReviewOutcome.SUCCESS then
      { s with
        phase := TDDPhase.done
        status := some TDDStatus.SUCCESS
        review_attempts := new_attempt
        implementation_notes :=
          s.implementation_notes ++ "\n\nReview: " ++ r.notes }
    else
      let new_history :=
        s.rejection_history ++ [pyOrStr r.rejection_reason r.notes]
      if new_attempt ≥ s.config.max_review_attempts then
        { s with
          phase := TDDPhase.done
          status := some TDDStatus.MAX_ATTEMPTS_REACHED
          review_attempts := new_attempt
          rejection_history := new_history
          implementation_notes :=
            s.implementation_notes ++ "\n\nReview (rejected): " ++ r.notes }
      else
        { s with
          phase := TDDPhase.implement
          review_attempts := new_attempt
          rejection_history := new_history
          implementation_notes :=
            s.implementation_notes ++ "\n\nReview (rejected): " ++ r.notes }
  | none =>
    { s with
      phase := TDDPhase.done
      status := some TDDStatus.MAX_ATTEMPTS_REACHED
      review_attempts := new_attempt }

/-- The graph nodes. -/
inductive TDDNode
  | write_tests
  | implement
  | refactor
  | review
deriving DecidableEq, Repr

/-- Source `after_write_tests` (lines 241-244): `none` is `END`. -/
def after_write_tests (s : TDDState) : Option TDDNode :=
  if s.status = some TDDStatus.DISCARDED then none
  else some TDDNode.implement

/-- Source `after_refactor` (lines 247-248). -/
def after_refactor (_s : TDDState) : Option TDDNode :=
  some TDDNode.review

/-- Source `after_review` (lines 251-256): `none` is `END`. -/
def after_review (s : TDDState) : Option TDDNode :=
  if s.status = some TDDStatus.SUCCESS then none
  else if s.review_attempts ≥ s.config.max_review_attempts then none
  else some TDDNode.implement

/-- The per-node gateway oracle for one subworkflow run: the structured result
each node would receive on its `k`-th execution. -/
structure TDDGateway where
  writeTests : Option WriteTestsResult
  implementR : Nat → Option ImplementResult
  refactorR : Nat → Option TDDRefactorResult
  reviewR : Nat → Option TDDReviewResult

/-- An execution configuration of the compiled graph: the node about to run
(`none` once `END` is reached), the state, and ghost counters of how many
times the `implement`, `refactor` and `review` nodes have executed. -/
structure TDDExec where
  node : Option TDDNode
  state : TDDState
  implRuns : Nat
  refacRuns : Nat
  revRuns : Nat
deriving Repr

/-- One step of the compiled graph: run the active node, follow its outgoing
(static or conditional) edge.  `START → write_tests`, `write_tests` routed by
`after_write_tests`, `implement → refactor` (static), `refactor` routed by
`after_refactor`, `review` routed by `after_review`. -/
def tddStep (g : TDDGateway) (e : TDDExec) : TDDExec :=
  match e.node with
  | none => e
  | some TDDNode.write_tests =>
    let s := write_tests_node e.state g.writeTests
    { e with node := after_write_tests s, state := s }
  | some TDDNode.implement =>
    let s := implement_node e.state (g.implementR e.implRuns)
    { e with node := some TDDNode.refactor, state := s,
             implRuns := e.implRuns + 1 }
  | some TDDNode.refactor =>
    let s := refactor_node e.state (g.refactorR e.refacRuns)
    { e with node := after_refactor s, state := s,
             refacRuns := e.refacRuns + 1 }
  | some TDDNode.review =>
    let s := review_node e.state (g.reviewR e.revRuns)
    { e with node := after_review s, state := s, revRuns := e.revRuns + 1 }

/-- The initial state built by `run_tdd_subgraph` (lines 405-413). -/
def tddInitialState (config : TDDConfig) : TDDState :=
  { config := config
    phase := TDDPhase.write_tests
    test_file_path := none
    implementation_notes := ""
    review_attempts := 0
    status := none
    rejection_history := [] }

/-- The initial execution configuration: `START`'s edge enters `write_tests`. -/
def tddInit (config : TDDConfig) : TDDExec :=
  { node := some TDDNode.write_tests
    state := tddInitialState config
    implRuns := 0
    refacRuns := 0
    revRuns := 0 }

/-- Source `n` steps of the compiled graph from `e`. -/
def tddRun (g : TDDGateway) (e : TDDExec) : Nat → TDDExec
  | 0 => e
  | n + 1 => tddRun g (tddStep g e) n

/-- Execution invariant of the subworkflow relating the ghost counters, the
attempt counter and the bound `N = max_review_attempts` (proof
infrastructure). -/
def tddInv (N : Nat) (e : TDDExec) : Prop :=
  e.state.config.max_review_attempts = N
  ∧ e.revRuns = e.state.review_attempts
  ∧ (e.node ≠ none → e.state.review_attempts < max N 1)
  ∧ (e.node = some TDDNode.write_tests →
      e.state.review_attempts = 0 ∧ e.implRuns = 0)
  ∧ (e.node = some TDDNode.implement →
      e.implRuns = e.state.review_attempts)
  ∧ ((e.node = some TDDNode.refactor ∨ e.node = some TDDNode.review) →
      e.implRuns = e.state.review_attempts + 1)
  ∧ (e.node = none →
      e.implRuns ≤ e.state.review_attempts
      ∧ e.state.review_attempts ≤ max N 1
      ∧ (e.state.status = some TDDStatus.SUCCESS
        ∨ e.state.status = some TDDStatus.DISCARDED
        ∨ e.state.status = some TDDStatus.MAX_ATTEMPTS_REACHED))

/-- Termination measure for the subworkflow (proof infrastructure). -/
def tddMeasure (e : TDDExec) : Nat :=
  match e.node with
  | none => 0
  | some TDDNode.write_tests =>
    3 * max e.state.config.max_review_attempts 1 + 2
  | some TDDNode.implement =>
    3 * (max e.state.config.max_review_attempts 1 - e.state.review_attempts)
  | some TDDNode.refactor =>
    3 * (max e.state.config.max_review_attempts 1 - e.state.review_attempts)
      - 1
  | some TDDNode.review =>
    3 * (max e.state.config.max_review_attempts 1 - e.state.review_attempts)
      - 2

/-! ## Checkpoint pointer and run loop (`code_agent/checkpointing.py`,
`bug_hunter.main`)

The durable state directory is embedded as a record: the checkpoint pointer
file (`current_thread.txt`, `none` = absent) and the three store documents
written by `persist_state`.  The checkpoint snapshot store (the sqlite
checkpointer's `aget`) is an oracle `String → Option σ`. -/

/-- The state directory on disk. -/
structure StateDir where
  pointer : Option String
  bugsFile : List (String × Bug)
  fixesFile : List (String × BugFix)
  entrypointsFile : List String
deriving Repr

/-- Source `save_thread_id`: write the pointer file. -/
def save_thread_id (fs : StateDir) (thread_id : String) : StateDir :=
  { fs with pointer := some thread_id }

/-- Source `load_thread_id`: the pointer file's content, `none` when absent. -/
def load_thread_id (fs : StateDir) : Option String :=
  fs.pointer

/-- Source `clear_thread_id`: remove the pointer file if it exists. -/
def clear_thread_id (fs : StateDir) : StateDir :=
  { fs with pointer := none }

/-- Source `check_for_incomplete_run` (lines 37-48): read the pointer; Python's
`if not thread_id` is true for both a missing file and empty content; then ask
the checkpointer for a snapshot under that identifier. -/
def check_for_incomplete_run {σ : Type u} (snapshots : String → Option σ)
    (fs : StateDir) : Bool × Option String :=
  match load_thread_id fs with
  | none => (false, none)
  | some thread_id =>
    if thread_id = "" then (false, none)
    else
      match snapshots thread_id with
      | some _ => (true, some thread_id)
      | none => (false, none)

/-- The `--resume` / `--no-resume` mutually exclusive flags. -/
structure ResumeArgs where
  resume : Bool
  no_resume : Bool
deriving DecidableEq, Repr

/-- The fresh initial state `main` builds from `load_initial_state` (the
loaded triple is passed in; reading the documents is I/O). -/
def freshInitialState (bugs : List (String × Bug))
    (fixes : List (String × BugFix)) (entrypoints : List String) :
    BugHunterState :=
  { messages := ["Starting the bug hunt"]
    bugs := bugs
    fixes := fixes
    entrypoints := entrypoints }

/-- The start-up decision of `main` (lines 801-835): which thread id the run
uses, the initial state passed to the stream (`none` = resume from the
checkpoint), and whether the interactive resume prompt was shown.
`fresh_id` stands for `generate_thread_id()` and `prompt_answer` for the value
`prompt_resume()` would return. -/
def main_startup {σ : Type u} (snapshots : String → Option σ) (fs : StateDir)
    (args : ResumeArgs) (prompt_answer : Bool) (fresh_id : String)
    (loaded : BugHunterState) :
    String × Option BugHunterState × Bool :=
  let check := check_for_incomplete_run snapshots fs
  match check with
  | (true, some existing_thread_id) =>
    let decision : Bool × Bool :=
      if args.resume then (true, false)
      else if args.no_resume then (false, false)
      else (prompt_answer, true)
    if decision.1 then (existing_thread_id, none, decision.2)
    else (fresh_id, some loaded, decision.2)
  | _ => (fresh_id, some loaded, false)

/-- How the `astream` loop over phase events ends: it either completes
normally or is torn down by an unhandled exception or an operator
cancellation raised into the loop. -/
inductive StreamOutcome
  | completed
  | raised
deriving DecidableEq, Repr

/-- The externally visible effects of `main`'s run loop on the state
directory. -/
inductive MainEffect
  | persist (bugs : List (String × Bug)) (fixes : List (String × BugFix))
      (entrypoints : List String)
  | clearPtr
deriving DecidableEq, Repr

/-- The `finally` block of `main` (lines 851-860): persist the last streamed
state if any, then clear the pointer only if `run_completed` was reached. -/
def main_finalize (final_state : Option BugHunterState)
    (run_completed : Bool) : List MainEffect :=
  (match final_state with
   | some st => [MainEffect.persist st.bugs st.fixes st.entrypoints]
   | none => [])
  ++ (if run_completed then [MainEffect.clearPtr] else [])

/-- The run loop of `main` (lines 840-860): `events` are the states the
stream yielded before `outcome`; `run_completed = True` is reached only when
the stream is exhausted normally, and the `finally` block always runs. -/
def main_run_loop (events : List BugHunterState) (outcome : StreamOutcome) :
    List MainEffect :=
  main_finalize events.getLast? (outcome = StreamOutcome.completed)

/-- Effect application to the state directory (`persist_state` rewrites the
three documents; `clear_thread_id` removes the pointer). -/
def applyMainEffect (fs : StateDir) : MainEffect → StateDir
  | MainEffect.persist bugs fixes entrypoints =>
    { fs with bugsFile := bugs, fixesFile := fixes,
              entrypointsFile := entrypoints }
  | MainEffect.clearPtr => clear_thread_id fs

/-- The state directory after `main` saved the chosen thread id (line 837)
and the run loop finished with `outcome`. -/
def main_final_dir (fs : StateDir) (thread_id : String)
    (events : List BugHunterState) (outcome : StreamOutcome) : StateDir :=
  (main_run_loop events outcome).foldl applyMainEffect
    (save_thread_id fs thread_id)

/-! ## Concrete instances

Sample records used as concrete inputs by counterexamples and witnesses. -/

/-- A high-severity `POTENTIAL` item. -/
def bugPotential : Bug :=
  { id := "BUG-001"
    short_description := "potential bug"
    severity := Severity.HIGH
    status := BugStatus.POTENTIAL
    relevant_files := ["a.py"] }

/-- A `READY_FOR_REVIEW` item whose reproducibility approach is `MANUAL`. -/
def bugReadyManual : Bug :=
  { id := "BUG-001"
    short_description := "manual bug"
    severity := Severity.HIGH
    status := BugStatus.READY_FOR_REVIEW
    relevant_files := []
    reproducibility_chance := some ReproChance.EASY
    reproducibility_approach := some ReproApproach.MANUAL }

/-- A `READY_FOR_REVIEW` item with a `UNIT_TEST` approach. -/
def bugReadyUnitTest : Bug :=
  { id := "BUG-002"
    short_description := "reviewable bug"
    severity := Severity.HIGH
    status := BugStatus.READY_FOR_REVIEW
    relevant_files := []
    reproducibility_chance := some ReproChance.EASY
    reproducibility_approach := some ReproApproach.UNIT_TEST }

/-- A `PREPARED_FOR_FIX` item with a `UNIT_TEST` approach. -/
def bugPrepared : Bug :=
  { id := "BUG-003"
    short_description := "prepared bug"
    severity := Severity.HIGH
    status := BugStatus.PREPARED_FOR_FIX
    relevant_files := []
    reproducibility_chance := some ReproChance.EASY
    reproducibility_approach := some ReproApproach.UNIT_TEST }

/-- A snapshot holding only `bugReadyManual`, with an empty queue. -/
def stateReadyManual : BugHunterState :=
  { messages := []
    bugs := [("BUG-001", bugReadyManual)]
    fixes := []
    entrypoints := [] }

/-- A snapshot with one prepared and one reviewable item. -/
def stateWorkable : BugHunterState :=
  { messages := []
    bugs := [("BUG-003", bugPrepared), ("BUG-002", bugReadyUnitTest)]
    fixes := [("BUG-003",
      { bug_id := "BUG-003", status := FixStatus.IN_REVIEW })]
    entrypoints := [] }

/-- A snapshot with one tracked bug and one pending entrypoint. -/
def stateScout : BugHunterState :=
  { messages := []
    bugs := [("BUG-001", bugPotential)]
    fixes := []
    entrypoints := ["a.go", "b.go"] }

/-- A scouted finding. -/
def scoutBugA : ScoutBug :=
  { short_description := "crash"
    severity := Severity.HIGH
    relevant_files := ["a.go"]
    details := "details" }

/-- A scout result reporting two findings. -/
def scoutResultTwo : ScoutResult :=
  { bugs := [scoutBugA, scoutBugA]
    exploration_summary := "explored" }

/-- A gateway for the TDD subworkflow whose every call returns a structured
result, with the review approving on every attempt. -/
def tddGatewayHappy : TDDGateway :=
  { writeTests := some
      { status := WriteTestsOutcome.PREPARED_FOR_FIX
        test_file_path := some "test_a.py"
        notes := "tests written" }
    implementR := fun _ => some
      { status := ImplementOutcome.READY_FOR_REVIEW, notes := "implemented" }
    refactorR := fun _ => some
      { refactored := true, notes := "cleaned" }
    reviewR := fun _ => some
      { status := TDDReviewOutcome.SUCCESS
        rejection_reason := none
        notes := "approved" } }

/-- A gateway whose review rejects on every attempt. -/
def tddGatewayRejecting : TDDGateway :=
  { tddGatewayHappy with
    reviewR := fun _ => some
      { status := TDDReviewOutcome.REJECTED
        rejection_reason := some "incomplete"
        notes := "rejected" } }

/-- A configuration with `max_review_attempts = 0`. -/
def cfgZero : TDDConfig :=
  { task_id := "BUG-001", task_type := TaskType.BUG_FIX,
    max_review_attempts := 0 }

/-- A configuration with the default `max_review_attempts = 3`. -/
def cfgThree : TDDConfig :=
  { task_id := "BUG-001", task_type := TaskType.BUG_FIX }

/-- A gateway oracle whose first request yields no structured result and
whose every later request yields one. -/
def gwFailThenSucceed : Nat → List (Option Nat) :=
  fun n =>
    match n with
    | 0 => [none, none]
    | _ + 1 => [some 42]

/-- A state directory with no pointer file and empty documents. -/
def dirEmpty : StateDir :=
  { pointer := none, bugsFile := [], fixesFile := [], entrypointsFile := [] }

/-- A state directory whose pointer file names a run identifier. -/
def dirWithPointer : StateDir :=
  { dirEmpty with pointer := some "run-20240101-000000" }

/-- Command line with neither `--resume` nor `--no-resume`. -/
def argsNeither : ResumeArgs :=
  { resume := false, no_resume := false }

/-! # Theorems -/

/-! ## Dictionary lemmas -/

theorem dlookup_append {α : Type u} (k : String) (xs ys : List (String × α)) :
    dlookup k (xs ++ ys) = firstSome (dlookup k xs) (dlookup k ys) := by
  induction xs with
  | nil => simp [dlookup, firstSome]
  | cons p rest ih =>
    obtain ⟨k', v⟩ := p
    by_cases h : k' = k <;> simp [dlookup, h, ih, firstSome]

theorem pyUpdEntry_fst {α : Type u} (new : List (String × α)) (p : String × α) :
    (pyUpdEntry new p).1 = p.1 := by
  unfold pyUpdEntry
  cases dlookup p.1 new <;> rfl

theorem dlookup_map_upd {α : Type u} (k : String) (a b : List (String × α)) :
    dlookup k (a.map (pyUpdEntry b)) =
      match dlookup k a with
      | some v => firstSome (dlookup k b) (some v)
      | none => none := by
  induction a with
  | nil => simp [dlookup]
  | cons p rest ih =>
    obtain ⟨k', v⟩ := p
    cases hb : dlookup k' b with
    | some w =>
      by_cases h : k' = k
      · subst h
        simp [pyUpdEntry, hb, dlookup, firstSome]
      · simp [pyUpdEntry, hb, dlookup, h, ih]
    | none =>
      by_cases h : k' = k
      · subst h
        simp [pyUpdEntry, hb, dlookup, firstSome]
      · simp [pyUpdEntry, hb, dlookup, h, ih]

theorem dlookup_filter_absent {α : Type u} (k : String)
    (a b : List (String × α)) :
    dlookup k (b.filter (keyAbsent a)) =
      match dlookup k a with
      | some _ => none
      | none => dlookup k b := by
  induction b with
  | nil => cases dlookup k a <;> simp [dlookup]
  | cons p rest ih =>
    obtain ⟨k', v⟩ := p
    cases ha : dlookup k' a with
    | none =>
      have habs : keyAbsent a (k', v) = true := by
        simp [keyAbsent, ha]
      by_cases hk : k' = k
      · subst hk
        simp [List.filter_cons, habs, dlookup, ha]
      · simp [List.filter_cons, habs, dlookup, hk, ih]
    | some w =>
      have habs : keyAbsent a (k', v) = false := by
        simp [keyAbsent, ha]
      by_cases hk : k' = k
      · subst hk
        rw [List.filter_cons]
        simp only [habs, Bool.false_eq_true, if_false]
        rw [ih]
        simp [ha]
      · rw [List.filter_cons]
        simp only [habs, Bool.false_eq_true, if_false]
        rw [ih]
        cases dlookup k a <;> simp [dlookup, hk]

theorem dlookup_pyDictMerge {α : Type u} (k : String)
    (a b : List (String × α)) :
    dlookup k (pyDictMerge a b) = firstSome (dlookup k b) (dlookup k a) := by
  unfold pyDictMerge
  rw [dlookup_append, dlookup_map_upd, dlookup_filter_absent]
  cases ha : dlookup k a <;> cases hb : dlookup k b <;> simp [firstSome]

theorem dlookup_eq_none_iff {α : Type u} (k : String)
    (d : List (String × α)) :
    dlookup k d = none ↔ k ∉ dkeys d := by
  induction d with
  | nil => simp [dlookup, dkeys]
  | cons p rest ih =>
    obtain ⟨k', v⟩ := p
    by_cases h : k' = k
    · subst h
      simp [dlookup, dkeys]
    · have hne : ¬ k = k' := fun hkk => h hkk.symm
      simp [dlookup, dkeys, h, hne, ih]

theorem dlookup_isSome_of_mem {α : Type u} {k : String} {v : α}
    {d : List (String × α)} (h : (k, v) ∈ d) : (dlookup k d).isSome := by
  induction d with
  | nil => simp at h
  | cons p rest ih =>
    obtain ⟨k', w⟩ := p
    rcases List.mem_cons.mp h with heq | hmem
    · injection heq with h1 h2
      subst h1
      simp [dlookup]
    · by_cases hk : k' = k
      · simp [dlookup, hk]
      · simpa [dlookup, hk] using ih hmem

theorem dlookup_of_mem_nodup {α : Type u} {k : String} {v : α}
    {d : List (String × α)} (hd : NodupKeys d) (h : (k, v) ∈ d) :
    dlookup k d = some v := by
  induction d with
  | nil => simp at h
  | cons p rest ih =>
    obtain ⟨k', w⟩ := p
    have hd2 := hd
    rw [NodupKeys, dkeys, List.map_cons, List.nodup_cons] at hd2
    rcases List.mem_cons.mp h with heq | hmem
    · injection heq with h1 h2
      subst h1; subst h2
      simp [dlookup]
    · by_cases hk : k' = k
      · subst hk
        have : (k', v).1 ∈ rest.map Prod.fst := List.mem_map_of_mem Prod.fst hmem
        exact absurd this hd2.1
      · have hrest : NodupKeys rest := hd2.2
        simpa [dlookup, hk] using ih hrest hmem

theorem pyUpdEntry_comp {α : Type u} (b c : List (String × α))
    (p : String × α) :
    pyUpdEntry c (pyUpdEntry b p) = pyUpdEntry (pyDictMerge b c) p := by
  cases hb : dlookup p.1 b with
  | some w =>
    cases hc : dlookup p.1 c with
    | some x => simp [pyUpdEntry, hb, hc, dlookup_pyDictMerge, firstSome]
    | none => simp [pyUpdEntry, hb, hc, dlookup_pyDictMerge, firstSome]
  | none =>
    cases hc : dlookup p.1 c with
    | some x => simp [pyUpdEntry, hb, hc, dlookup_pyDictMerge, firstSome]
    | none => simp [pyUpdEntry, hb, hc, dlookup_pyDictMerge, firstSome]

theorem filter_map_upd_comm {α : Type u} (a c b : List (String × α)) :
    (b.filter (keyAbsent a)).map (pyUpdEntry c) =
      (b.map (pyUpdEntry c)).filter (keyAbsent a) := by
  induction b with
  | nil => rfl
  | cons p rest ih =>
    have hkey : keyAbsent a (pyUpdEntry c p) = keyAbsent a p := by
      simp [keyAbsent, pyUpdEntry_fst]
    cases habs : keyAbsent a p <;>
      simp [List.filter_cons, List.map_cons, habs, hkey, ih]

theorem keyAbsent_pyDictMerge {α : Type u} (a b : List (String × α))
    (p : String × α) :
    keyAbsent (pyDictMerge a b) p = (keyAbsent b p && keyAbsent a p) := by
  simp only [keyAbsent, dlookup_pyDictMerge]
  cases dlookup p.1 b <;> cases dlookup p.1 a <;> simp [firstSome]

theorem filter_absent_merge {α : Type u} (a b c : List (String × α)) :
    c.filter (keyAbsent (pyDictMerge a b)) =
      (c.filter (keyAbsent b)).filter (keyAbsent a) := by
  induction c with
  | nil => rfl
  | cons p rest ih =>
    rw [List.filter_cons, List.filter_cons, keyAbsent_pyDictMerge]
    cases hb : keyAbsent b p <;> cases ha : keyAbsent a p <;>
      simp [List.filter_cons, hb, ha, ih]

theorem pyDictMerge_assoc {α : Type u} (a b c : List (String × α)) :
    pyDictMerge (pyDictMerge a b) c = pyDictMerge a (pyDictMerge b c) := by
  show (pyDictMerge a b).map (pyUpdEntry c) ++ c.filter (keyAbsent (pyDictMerge a b))
      = a.map (pyUpdEntry (pyDictMerge b c))
        ++ (pyDictMerge b c).filter (keyAbsent a)
  have h1 : (a.map (pyUpdEntry b)).map (pyUpdEntry c)
      = a.map (pyUpdEntry (pyDictMerge b c)) := by
    rw [List.map_map]
    exact List.map_congr_left fun p _ => pyUpdEntry_comp b c p
  calc (pyDictMerge a b).map (pyUpdEntry c)
        ++ c.filter (keyAbsent (pyDictMerge a b))
      = (a.map (pyUpdEntry b)).map (pyUpdEntry c)
          ++ ((b.filter (keyAbsent a)).map (pyUpdEntry c)
          ++ c.filter (keyAbsent (pyDictMerge a b))) := by
        simp [pyDictMerge, List.map_append, List.append_assoc]
    _ = a.map (pyUpdEntry (pyDictMerge b c))
          ++ ((b.map (pyUpdEntry c)).filter (keyAbsent a)
          ++ (c.filter (keyAbsent b)).filter (keyAbsent a)) := by
        rw [h1, filter_map_upd_comm, filter_absent_merge]
    _ = a.map (pyUpdEntry (pyDictMerge b c))
          ++ (pyDictMerge b c).filter (keyAbsent a) := by
        rw [← List.filter_append]
        rfl

theorem pyUpdEntry_self_idem {α : Type u} (b : List (String × α))
    (p : String × α) :
    pyUpdEntry b (pyUpdEntry b p) = pyUpdEntry b p := by
  cases hb : dlookup p.1 b with
  | some w => simp [pyUpdEntry, hb]
  | none => simp [pyUpdEntry, hb]

theorem pyDictMerge_idem {α : Type u} (a b : List (String × α))
    (hb : NodupKeys b) :
    pyDictMerge (pyDictMerge a b) b = pyDictMerge a b := by
  have habsent : b.filter (keyAbsent (pyDictMerge a b)) = [] := by
    apply List.filter_eq_nil_iff.mpr
    intro p hp
    have := dlookup_isSome_of_mem (k := p.1) (v := p.2)
      (by simpa using hp)
    simp only [keyAbsent, dlookup_pyDictMerge]
    cases hlb : dlookup p.1 b with
    | none => rw [hlb] at this; simp at this
    | some w => simp [firstSome]
  have hmap : (pyDictMerge a b).map (pyUpdEntry b) = pyDictMerge a b := by
    show (a.map (pyUpdEntry b) ++ b.filter (keyAbsent a)).map (pyUpdEntry b)
        = pyDictMerge a b
    rw [List.map_append, List.map_map]
    have h1 : a.map (pyUpdEntry b ∘ pyUpdEntry b) = a.map (pyUpdEntry b) :=
      List.map_congr_left fun p _ => pyUpdEntry_self_idem b p
    have h2 : (b.filter (keyAbsent a)).map (pyUpdEntry b)
        = b.filter (keyAbsent a) := by
      have : ∀ p ∈ b.filter (keyAbsent a), pyUpdEntry b p = p := by
        intro p hp
        have hpb : p ∈ b := List.mem_of_mem_filter hp
        have : dlookup p.1 b = some p.2 :=
          dlookup_of_mem_nodup hb (by simpa using hpb)
        simp [pyUpdEntry, this]
      calc (b.filter (keyAbsent a)).map (pyUpdEntry b)
          = (b.filter (keyAbsent a)).map id := List.map_congr_left this
        _ = b.filter (keyAbsent a) := List.map_id _
    rw [h1, h2]
    rfl
  show (pyDictMerge a b).map (pyUpdEntry b)
      ++ b.filter (keyAbsent (pyDictMerge a b)) = pyDictMerge a b
  rw [habsent, hmap, List.append_nil]

/-! ## Claim C4 -/

/-- C4: `merge_bugs`/`merge_fixes` return the key-union in which the incoming
map's value wins on every shared key and every other existing entry is kept
(stated through `dlookup`: the merged value at `k` is incoming's when defined,
else existing's, and a key is present iff it is present on either side); the
merge is associative; and re-applying the same incoming map leaves the result
unchanged. -/
theorem merge_reducers_contract :
    (∀ (a b : List (String × Bug)),
      (∀ k, dlookup k (merge_bugs a b) = firstSome (dlookup k b) (dlookup k a))
      ∧ (∀ k, k ∈ dkeys (merge_bugs a b) ↔ k ∈ dkeys a ∨ k ∈ dkeys b))
    ∧ (∀ a b c : List (String × Bug),
        merge_bugs (merge_bugs a b) c = merge_bugs a (merge_bugs b c))
    ∧ (∀ a b : List (String × Bug), NodupKeys b →
        merge_bugs (merge_bugs a b) b = merge_bugs a b)
    ∧ (∀ (a b : List (String × BugFix)),
      (∀ k, dlookup k (merge_fixes a b) = firstSome (dlookup k b) (dlookup k a))
      ∧ (∀ k, k ∈ dkeys (merge_fixes a b) ↔ k ∈ dkeys a ∨ k ∈ dkeys b))
    ∧ (∀ a b c : List (String × BugFix),
        merge_fixes (merge_fixes a b) c = merge_fixes a (merge_fixes b c))
    ∧ (∀ a b : List (String × BugFix), NodupKeys b →
        merge_fixes (merge_fixes a b) b = merge_fixes a b) := by
  have keyChar : ∀ {γ : Type} (a b : List (String × γ)) (k : String),
      k ∈ dkeys (pyDictMerge a b) ↔ k ∈ dkeys a ∨ k ∈ dkeys b := by
    intro γ a b k
    constructor
    · intro hmem
      by_contra hcon
      push_neg at hcon
      have ha : dlookup k a = none := (dlookup_eq_none_iff k a).mpr hcon.1
      have hb : dlookup k b = none := (dlookup_eq_none_iff k b).mpr hcon.2
      have : dlookup k (pyDictMerge a b) = none := by
        rw [dlookup_pyDictMerge, hb, ha]; rfl
      exact ((dlookup_eq_none_iff k _).mp this) hmem
    · intro hmem
      by_contra hcon
      have : dlookup k (pyDictMerge a b) = none :=
        (dlookup_eq_none_iff k _).mpr hcon
      rw [dlookup_pyDictMerge] at this
      cases hb : dlookup k b with
      | some v => rw [hb] at this; simp [firstSome] at this
      | none =>
        cases ha : dlookup k a with
        | some v => rw [hb, ha] at this; simp [firstSome] at this
        | none =>
          rcases hmem with h | h
          · exact ((dlookup_eq_none_iff k a).mp ha) h
          · exact ((dlookup_eq_none_iff k b).mp hb) h
  refine ⟨fun a b => ⟨fun k => dlookup_pyDictMerge k a b, keyChar a b⟩,
    pyDictMerge_assoc, fun a b hb => pyDictMerge_idem a b hb,
    fun a b => ⟨fun k => dlookup_pyDictMerge k a b, keyChar a b⟩,
    pyDictMerge_assoc, fun a b hb => pyDictMerge_idem a b hb⟩

/-- Witness for C4 at concrete dicts: idempotence's nodup-keys hypothesis is
discharged at a two-entry incoming map. -/
theorem merge_reducers_contract_witness :
    dlookup "BUG-002"
        (merge_bugs [("BUG-001", bugPotential)]
          [("BUG-002", bugReadyUnitTest), ("BUG-001", bugReadyManual)])
      = some bugReadyUnitTest
    ∧ merge_bugs
        (merge_bugs [("BUG-001", bugPotential)]
          [("BUG-002", bugReadyUnitTest), ("BUG-001", bugReadyManual)])
        [("BUG-002", bugReadyUnitTest), ("BUG-001", bugReadyManual)]
      = merge_bugs [("BUG-001", bugPotential)]
          [("BUG-002", bugReadyUnitTest), ("BUG-001", bugReadyManual)] := by
  refine ⟨?_, ?_⟩
  · rw [(merge_reducers_contract.1 _ _).1 "BUG-002"]
    decide
  · exact merge_reducers_contract.2.2.1 _ _ (by decide)

/-! ## Claim C5 -/

/-- C5: the queue reducer returns the existing queue for the `None` sentinel,
the empty queue for an explicit `[]`, and any non-`None` incoming list
verbatim. -/
theorem replace_entrypoints_contract :
    ∀ Q : List String,
      replace_entrypoints Q none = Q
      ∧ replace_entrypoints Q (some []) = []
      ∧ ∀ l : List String, replace_entrypoints Q (some l) = l :=
  fun _ => ⟨rfl, rfl, fun _ => rfl⟩

/-! ## Claim C1 -/

/-- C1 counterexample: a snapshot whose only item is `READY_FOR_REVIEW` with a
`MANUAL` reproducibility approach and whose queue is empty.  The claimed
router (tier 1 requiring a `UNIT_TEST` approach) falls through to the
suggest-entrypoints phase, but `check_state` returns the review phase: its
first tier tests the status only. -/
theorem check_state_unit_test_filter_cex :
    check_state stateReadyManual = "review_fix_node"
    ∧ check_state_claimed stateReadyManual = "suggest_entrypoint_node"
    ∧ check_state stateReadyManual ≠ check_state_claimed stateReadyManual := by
  refine ⟨by decide, by decide, by decide⟩

/-- C1 amended: `check_state` evaluates the fixed priority list top to bottom
with first match winning, with tier 1 selecting the review phase exactly when
some WorkItem has status `READY_FOR_REVIEW` (regardless of reproducibility
approach); the remaining tiers are as claimed. -/
theorem check_state_router_amended (s : BugHunterState) :
    (check_state s = "review_fix_node"
      ↔ ∃ b ∈ dvalues s.bugs, b.status = BugStatus.READY_FOR_REVIEW)
    ∧ (check_state s = "fix_unit_test_bug_node"
      ↔ (¬ ∃ b ∈ dvalues s.bugs, b.status = BugStatus.READY_FOR_REVIEW)
        ∧ ∃ b ∈ dvalues s.bugs, b.status = BugStatus.PREPARED_FOR_FIX
            ∧ b.reproducibility_approach = some ReproApproach.UNIT_TEST)
    ∧ (check_state s = "reproduce_unit_test_bug_node"
      ↔ (¬ ∃ b ∈ dvalues s.bugs, b.status = BugStatus.READY_FOR_REVIEW)
        ∧ (¬ ∃ b ∈ dvalues s.bugs, b.status = BugStatus.PREPARED_FOR_FIX
            ∧ b.reproducibility_approach = some ReproApproach.UNIT_TEST)
        ∧ ∃ b ∈ dvalues s.bugs, b.status = BugStatus.IN_ANALYSIS
            ∧ b.reproducibility_approach = some ReproApproach.UNIT_TEST)
    ∧ (check_state s = "classify_bug_candidate_node"
      ↔ (¬ ∃ b ∈ dvalues s.bugs, b.status = BugStatus.READY_FOR_REVIEW)
        ∧ (¬ ∃ b ∈ dvalues s.bugs, b.status = BugStatus.PREPARED_FOR_FIX
            ∧ b.reproducibility_approach = some ReproApproach.UNIT_TEST)
        ∧ (¬ ∃ b ∈ dvalues s.bugs, b.status = BugStatus.IN_ANALYSIS
            ∧ b.reproducibility_approach = some ReproApproach.UNIT_TEST)
        ∧ ∃ b ∈ dvalues s.bugs, b.status = BugStatus.POTENTIAL
            ∧ b.severity = Severity.HIGH)
    ∧ (check_state s = "scout_node"
      ↔ (¬ ∃ b ∈ dvalues s.bugs, b.status = BugStatus.READY_FOR_REVIEW)
        ∧ (¬ ∃ b ∈ dvalues s.bugs, b.status = BugStatus.PREPARED_FOR_FIX
            ∧ b.reproducibility_approach = some ReproApproach.UNIT_TEST)
        ∧ (¬ ∃ b ∈ dvalues s.bugs, b.status = BugStatus.IN_ANALYSIS
            ∧ b.reproducibility_approach = some ReproApproach.UNIT_TEST)
        ∧ (¬ ∃ b ∈ dvalues s.bugs, b.status = BugStatus.POTENTIAL
            ∧ b.severity = Severity.HIGH)
        ∧ s.entrypoints ≠ [])
    ∧ (check_state s = "suggest_entrypoint_node"
      ↔ (¬ ∃ b ∈ dvalues s.bugs, b.status = BugStatus.READY_FOR_REVIEW)
        ∧ (¬ ∃ b ∈ dvalues s.bugs, b.status = BugStatus.PREPARED_FOR_FIX
            ∧ b.reproducibility_approach = some ReproApproach.UNIT_TEST)
        ∧ (¬ ∃ b ∈ dvalues s.bugs, b.status = BugStatus.IN_ANALYSIS
            ∧ b.reproducibility_approach = some ReproApproach.UNIT_TEST)
        ∧ (¬ ∃ b ∈ dvalues s.bugs, b.status = BugStatus.POTENTIAL
            ∧ b.severity = Severity.HIGH)
        ∧ s.entrypoints = []) := by
  simp only [check_state]
  split_ifs with h1 h2 h3 h4 h5 <;>
    simp_all [List.isEmpty_iff, List.filter_eq_nil_iff]

/-! ## Claim C3 -/

/-- C3: over every execution of the run loop, the checkpoint pointer is
removed exactly on the path where the phase stream completes normally; after
an abnormal exit (unhandled exception or operator cancellation tearing down
the stream) the pointer file still names the run identifier saved at start. -/
theorem pointer_cleared_iff_completed (fs : StateDir) (thread_id : String)
    (events : List BugHunterState) (outcome : StreamOutcome) :
    (MainEffect.clearPtr ∈ main_run_loop events outcome
      ↔ outcome = StreamOutcome.completed)
    ∧ (outcome = StreamOutcome.raised →
        (main_final_dir fs thread_id events outcome).pointer = some thread_id)
    ∧ (outcome = StreamOutcome.completed →
        (main_final_dir fs thread_id events outcome).pointer = none) := by
  cases outcome <;> cases hgl : events.getLast? <;>
    simp [main_run_loop, main_finalize, main_final_dir, applyMainEffect,
      save_thread_id, clear_thread_id, hgl]

/-- Witness for C3 at a concrete directory, identifier and outcome. -/
theorem pointer_cleared_iff_completed_witness :
    (main_final_dir dirEmpty "run-w" [stateScout] StreamOutcome.raised).pointer
      = some "run-w"
    ∧ (main_final_dir dirEmpty "run-w" [stateScout]
        StreamOutcome.completed).pointer = none :=
  ⟨(pointer_cleared_iff_completed dirEmpty "run-w" [stateScout]
      StreamOutcome.raised).2.1 rfl,
   (pointer_cleared_iff_completed dirEmpty "run-w" [stateScout]
      StreamOutcome.completed).2.2 rfl⟩

/-! ## Claim C6 -/

/-- C6 counterexample: a gateway whose first request yields no structured
result but whose second would.  Both executors report failure immediately,
while an executor that retried up to any bound of at least two requests would
succeed — so no retry happens. -/
theorem run_agent_no_retry_cex :
    run_agent gwFailThenSucceed = none
    ∧ tdd_run_agent gwFailThenSucceed = none
    ∧ run_agent_with_retries 2 gwFailThenSucceed 0 = some 42
    ∧ run_agent_with_retries 3 gwFailThenSucceed 0 = some 42 :=
  ⟨rfl, rfl, rfl, rfl⟩

/-- C6 amended: the executors issue exactly one request: each coincides with
the retrying executor at bound 1 (zero retries, immediate failure on a
missing structured result), and the executor's verdict depends only on the
response to the first request. -/
theorem run_agent_single_request_amended :
    (∀ (ρ : Type) (g : Nat → List (Option ρ)),
      run_agent g = run_agent_with_retries 1 g 0
      ∧ tdd_run_agent g = run_agent_with_retries 1 g 0)
    ∧ (∀ (ρ : Type) (g g' : Nat → List (Option ρ)), g 0 = g' 0 →
      run_agent g = run_agent g') := by
  have h1 : ∀ (ρ : Type) (g : Nat → List (Option ρ)),
      scanResponse (g 0) = run_agent_with_retries 1 g 0 := by
    intro ρ g
    cases h : scanResponse (g 0) <;>
      simp [run_agent_with_retries, h]
  exact ⟨fun ρ g => ⟨h1 ρ g, h1 ρ g⟩,
    fun ρ g g' h => by simp [run_agent, h]⟩

/-- Witness for C6's amended theorem: the first-request-only dependence at
concrete gateways. -/
theorem run_agent_single_request_amended_witness :
    run_agent gwFailThenSucceed
      = run_agent (fun _ => ([none, none] : List (Option Nat))) :=
  run_agent_single_request_amended.2 Nat gwFailThenSucceed
    (fun _ => [none, none]) rfl

/-! ## Claim C7 -/

/-- C7: when the pointer file names a run identifier for which the snapshot
store has no checkpoint, `check_for_incomplete_run` answers `(False, None)`
and start-up takes the fresh branch: new identifier, freshly loaded store
state, and no resume prompt. -/
theorem missing_snapshot_fresh_start {σ : Type u}
    (snapshots : String → Option σ) (fs : StateDir) (args : ResumeArgs)
    (prompt_answer : Bool) (fresh_id : String) (loaded : BugHunterState)
    (tid : String) (hptr : fs.pointer = some tid) (htid : tid ≠ "")
    (hsnap : snapshots tid = none) :
    check_for_incomplete_run snapshots fs = (false, none)
    ∧ main_startup snapshots fs args prompt_answer fresh_id loaded
        = (fresh_id, some loaded, false) := by
  have hcheck : check_for_incomplete_run snapshots fs = (false, none) := by
    simp [check_for_incomplete_run, load_thread_id, hptr, htid, hsnap]
  exact ⟨hcheck, by simp [main_startup, hcheck]⟩

/-- Witness for C7: the spec's scenario, pointer `run-20240101-000000` with an
empty snapshot store. -/
theorem missing_snapshot_fresh_start_witness :
    check_for_incomplete_run (fun _ => (none : Option Nat)) dirWithPointer
      = (false, none)
    ∧ main_startup (fun _ => (none : Option Nat)) dirWithPointer argsNeither
        false "run-fresh" (freshInitialState [] [] [])
      = ("run-fresh", some (freshInitialState [] [] []), false) :=
  missing_snapshot_fresh_start (fun _ => (none : Option Nat)) dirWithPointer
    argsNeither false "run-fresh" (freshInitialState [] [] [])
    "run-20240101-000000" rfl (by decide) rfl

/-! ## Claim C8 -/

/-- C8: when the gateway yields no structured result, each of the classify,
fix and review nodes returns an update carrying only a failure message: the
`bugs` and `fixes` keys are absent, so applying the update through the
reducers changes no item's status (the store channels are unchanged). -/
theorem failed_phase_frame (s : BugHunterState) (now : Nat) :
    (∀ b bs,
      (dvalues s.bugs).filter (fun x => x.status = BugStatus.POTENTIAL
          ∧ x.severity = Severity.HIGH) = b :: bs →
      classify_bug_candidate_node s now none
        = { messages := ["Failed to classify bug."] }
      ∧ (applyUpdate s (classify_bug_candidate_node s now none)).bugs = s.bugs
      ∧ (applyUpdate s (classify_bug_candidate_node s now none)).fixes
          = s.fixes
      ∧ (applyUpdate s (classify_bug_candidate_node s now none)).entrypoints
          = s.entrypoints)
    ∧ (∀ b bs,
      (dvalues s.bugs).filter (fun x => x.status = BugStatus.PREPARED_FOR_FIX
          ∧ x.reproducibility_approach = some ReproApproach.UNIT_TEST)
        = b :: bs →
      fix_unit_test_bug_node s now none
        = some { messages := ["Failed to fix bug."] }
      ∧ (applyUpdate s { messages := ["Failed to fix bug."] }).bugs = s.bugs
      ∧ (applyUpdate s { messages := ["Failed to fix bug."] }).fixes = s.fixes
      ∧ (applyUpdate s { messages := ["Failed to fix bug."] }).entrypoints
          = s.entrypoints)
    ∧ (∀ b bs,
      (dvalues s.bugs).filter (fun x => x.status = BugStatus.READY_FOR_REVIEW
          ∧ x.reproducibility_approach = some ReproApproach.UNIT_TEST)
        = b :: bs →
      review_fix_node s now none = some { messages := ["Review completed."] }
      ∧ (applyUpdate s { messages := ["Review completed."] }).bugs = s.bugs
      ∧ (applyUpdate s { messages := ["Review completed."] }).fixes = s.fixes
      ∧ (applyUpdate s { messages := ["Review completed."] }).entrypoints
          = s.entrypoints) := by
  refine ⟨?_, ?_, ?_⟩
  · intro b bs hpot
    simp only [Bool.decide_and] at hpot
    have hnode : classify_bug_candidate_node s now none
        = { messages := ["Failed to classify bug."] } := by
      simp [classify_bug_candidate_node, hpot]
    exact ⟨hnode, by simp [hnode, applyUpdate], by simp [hnode, applyUpdate],
      by simp [hnode, applyUpdate]⟩
  · intro b bs hprep
    simp only [Bool.decide_and] at hprep
    have hnode : fix_unit_test_bug_node s now none
        = some { messages := ["Failed to fix bug."] } := by
      simp [fix_unit_test_bug_node, hprep]
    exact ⟨hnode, by simp [applyUpdate], by simp [applyUpdate],
      by simp [applyUpdate]⟩
  · intro b bs hrev
    simp only [Bool.decide_and] at hrev
    have hnode : review_fix_node s now none
        = some { messages := ["Review completed."] } := by
      simp [review_fix_node, hrev]
    exact ⟨hnode, by simp [applyUpdate], by simp [applyUpdate],
      by simp [applyUpdate]⟩

/-- Witness for C8 at concrete snapshots with an eligible item for each of
the three nodes. -/
theorem failed_phase_frame_witness :
    classify_bug_candidate_node stateScout 7 none
      = { messages := ["Failed to classify bug."] }
    ∧ fix_unit_test_bug_node stateWorkable 7 none
      = some { messages := ["Failed to fix bug."] }
    ∧ review_fix_node stateWorkable 7 none
      = some { messages := ["Review completed."] } :=
  ⟨((failed_phase_frame stateScout 7).1 bugPotential [] (by decide)).1,
   ((failed_phase_frame stateWorkable 7).2.1 bugPrepared [] (by decide)).1,
   ((failed_phase_frame stateWorkable 7).2.2 bugReadyUnitTest []
      (by decide)).1⟩

/-! ## Claim C10 -/

/-- C10: on a non-empty queue and a gateway returning no structured result,
the scout node still replaces the queue by its tail, records no bugs and no
fixes, and the applied update leaves the stores unchanged while the failed
entrypoint is dropped (not re-queued). -/
theorem scout_consumes_head_on_failure (s : BugHunterState) (now : Nat)
    (e : String) (rest : List String) (hep : s.entrypoints = e :: rest) :
    scout_node s now none
      = some { messages := ["No bugs found."], entrypoints := some rest }
    ∧ (applyUpdate s
        { messages := ["No bugs found."], entrypoints := some rest }).bugs
      = s.bugs
    ∧ (applyUpdate s
        { messages := ["No bugs found."], entrypoints := some rest }).fixes
      = s.fixes
    ∧ (applyUpdate s
        { messages := ["No bugs found."], entrypoints := some rest }).entrypoints
      = rest := by
  refine ⟨by simp [scout_node, hep], by simp [applyUpdate],
    by simp [applyUpdate], by simp [applyUpdate, replace_entrypoints]⟩

/-- Witness for C10: the scout failure path at a concrete snapshot with a
two-element queue. -/
theorem scout_consumes_head_on_failure_witness :
    scout_node stateScout 7 none
      = some { messages := ["No bugs found."], entrypoints := some ["b.go"] } :=
  (scout_consumes_head_on_failure stateScout 7 "a.go" ["b.go"] rfl).1

/-! ## TDD subworkflow lemmas -/

theorem write_tests_node_config (s : TDDState) (r : Option WriteTestsResult) :
    (write_tests_node s r).config = s.config := by
  cases r <;> rfl

theorem write_tests_node_attempts (s : TDDState)
    (r : Option WriteTestsResult) :
    (write_tests_node s r).review_attempts = s.review_attempts := by
  cases r <;> rfl

theorem implement_node_config (s : TDDState) (r : Option ImplementResult) :
    (implement_node s r).config = s.config := by
  cases r with
  | none => rfl
  | some r =>
    by_cases h : r.status = ImplementOutcome.DISCARDED <;>
      simp [implement_node, h]

theorem implement_node_attempts (s : TDDState) (r : Option ImplementResult) :
    (implement_node s r).review_attempts = s.review_attempts := by
  cases r with
  | none => rfl
  | some r =>
    by_cases h : r.status = ImplementOutcome.DISCARDED <;>
      simp [implement_node, h]

theorem refactor_node_config (s : TDDState) (r : Option TDDRefactorResult) :
    (refactor_node s r).config = s.config := by
  by_cases h : s.config.task_type = TaskType.REFACTOR
  · simp [refactor_node, h]
  · cases r <;> simp [refactor_node, h]

theorem refactor_node_attempts (s : TDDState) (r : Option TDDRefactorResult) :
    (refactor_node s r).review_attempts = s.review_attempts := by
  by_cases h : s.config.task_type = TaskType.REFACTOR
  · simp [refactor_node, h]
  · cases r <;> simp [refactor_node, h]

theorem review_node_config (s : TDDState) (r : Option TDDReviewResult) :
    (review_node s r).config = s.config := by
  cases r with
  | none => rfl
  | some r =>
    by_cases h : r.status = TDDReviewOutcome.SUCCESS
    · simp [review_node, h]
    · by_cases h2 : s.review_attempts + 1 ≥ s.config.max_review_attempts <;>
        simp [review_node, h, h2]

/-- Part of C2's content: the review node increments the attempt counter on
every evaluation, whatever the gateway returns. -/
theorem review_node_attempts (s : TDDState) (r : Option TDDReviewResult) :
    (review_node s r).review_attempts = s.review_attempts + 1 := by
  cases r with
  | none => rfl
  | some r =>
    by_cases h : r.status = TDDReviewOutcome.SUCCESS
    · simp [review_node, h]
    · by_cases h2 : s.review_attempts + 1 ≥ s.config.max_review_attempts <;>
        simp [review_node, h, h2]

theorem after_write_tests_none {s : TDDState} (h : after_write_tests s = none) :
    s.status = some TDDStatus.DISCARDED := by
  by_cases hs : s.status = some TDDStatus.DISCARDED
  · exact hs
  · simp [after_write_tests, hs] at h

theorem after_write_tests_some {s : TDDState} {nd : TDDNode}
    (h : after_write_tests s = some nd) : nd = TDDNode.implement := by
  by_cases hs : s.status = some TDDStatus.DISCARDED <;>
    simp [after_write_tests, hs] at h
  exact h.symm

theorem after_review_implement (s : TDDState)
    (h : after_review s = some TDDNode.implement) :
    s.review_attempts < s.config.max_review_attempts := by
  by_cases h1 : s.status = some TDDStatus.SUCCESS
  · simp [after_review, h1] at h
  · by_cases h2 : s.review_attempts ≥ s.config.max_review_attempts
    · simp [after_review, h1, h2] at h
    · omega

theorem after_review_some {s : TDDState} {nd : TDDNode}
    (h : after_review s = some nd) : nd = TDDNode.implement := by
  by_cases h1 : s.status = some TDDStatus.SUCCESS
  · simp [after_review, h1] at h
  · by_cases h2 : s.review_attempts ≥ s.config.max_review_attempts <;>
      simp [after_review, h1, h2] at h
    exact h.symm

theorem after_review_none {s : TDDState} (h : after_review s = none) :
    s.status = some TDDStatus.SUCCESS
    ∨ s.review_attempts ≥ s.config.max_review_attempts := by
  by_cases h1 : s.status = some TDDStatus.SUCCESS
  · exact Or.inl h1
  · by_cases h2 : s.review_attempts ≥ s.config.max_review_attempts
    · exact Or.inr h2
    · simp [after_review, h1, h2] at h

theorem review_node_end_status (s : TDDState) (r : Option TDDReviewResult)
    (h : after_review (review_node s r) = none) :
    (review_node s r).status = some TDDStatus.SUCCESS
    ∨ (review_node s r).status = some TDDStatus.MAX_ATTEMPTS_REACHED := by
  cases r with
  | none => right; rfl
  | some r =>
    by_cases hs : r.status = TDDReviewOutcome.SUCCESS
    · left; simp [review_node, hs]
    · by_cases h2 : s.review_attempts + 1 ≥ s.config.max_review_attempts
      · right; simp [review_node, hs, h2]
      · have hst : (review_node s (some r)).status = s.status := by
          simp [review_node, hs, h2]
        have hat : (review_node s (some r)).review_attempts
            = s.review_attempts + 1 := review_node_attempts s (some r)
        have hcf : (review_node s (some r)).config = s.config :=
          review_node_config s (some r)
        rcases after_review_none h with h3 | h3
        · left; rw [hst] at h3; rw [hst]; exact h3
        · rw [hat, hcf] at h3; omega

theorem tddStep_of_none (g : TDDGateway) (e : TDDExec) (hn : e.node = none) :
    tddStep g e = e := by
  simp [tddStep, hn]

theorem tddStep_write_tests (g : TDDGateway) (e : TDDExec)
    (hn : e.node = some TDDNode.write_tests) :
    tddStep g e =
      { e with
        node := after_write_tests (write_tests_node e.state g.writeTests)
        state := write_tests_node e.state g.writeTests } := by
  simp [tddStep, hn]

theorem tddStep_implement (g : TDDGateway) (e : TDDExec)
    (hn : e.node = some TDDNode.implement) :
    tddStep g e =
      { e with
        node := some TDDNode.refactor
        state := implement_node e.state (g.implementR e.implRuns)
        implRuns := e.implRuns + 1 } := by
  simp [tddStep, hn]

theorem tddStep_refactor (g : TDDGateway) (e : TDDExec)
    (hn : e.node = some TDDNode.refactor) :
    tddStep g e =
      { e with
        node := some TDDNode.review
        state := refactor_node e.state (g.refactorR e.refacRuns)
        refacRuns := e.refacRuns + 1 } := by
  simp [tddStep, hn, after_refactor]

theorem tddStep_review (g : TDDGateway) (e : TDDExec)
    (hn : e.node = some TDDNode.review) :
    tddStep g e =
      { e with
        node := after_review (review_node e.state (g.reviewR e.revRuns))
        state := review_node e.state (g.reviewR e.revRuns)
        revRuns := e.revRuns + 1 } := by
  simp [tddStep, hn]

theorem tddInv_step (N : Nat) (g : TDDGateway) (e : TDDExec)
    (h : tddInv N e) : tddInv N (tddStep g e) := by
  obtain ⟨hcfg, hrev, hlt, hwt, himpl, hrr, hend⟩ := h
  have hmax1 : 1 ≤ max N 1 := Nat.le_max_right N 1
  cases hn : e.node with
  | none =>
    rw [tddStep_of_none g e hn]
    exact ⟨hcfg, hrev, hlt, hwt, himpl, hrr, hend⟩
  | some nd =>
    cases nd with
    | write_tests =>
      obtain ⟨ha0, hi0⟩ := hwt hn
      rw [tddStep_write_tests g e hn]
      set s' := write_tests_node e.state g.writeTests with hs'
      have hcf : s'.config = e.state.config := write_tests_node_config _ _
      have hat : s'.review_attempts = e.state.review_attempts :=
        write_tests_node_attempts _ _
      cases hafter : after_write_tests s' with
      | none =>
        refine ⟨by rw [hcf]; exact hcfg, by rw [hat]; exact hrev ▸ rfl,
          ?_, ?_, ?_, ?_, ?_⟩
        · intro hcon; simp [hafter] at hcon
        · intro hcon; simp [hafter] at hcon
        · intro hcon; simp [hafter] at hcon
        · intro hcon; rcases hcon with hcon | hcon <;> simp [hafter] at hcon
        · intro _
          refine ⟨by rw [hat, ha0]; exact Nat.le_of_eq hi0, ?_, ?_⟩
          · rw [hat, ha0]; exact Nat.zero_le _
          · exact Or.inr (Or.inl (after_write_tests_none hafter))
      | some nd' =>
        have hnd' := after_write_tests_some hafter
        subst hnd'
        refine ⟨by rw [hcf]; exact hcfg, by rw [hat]; exact hrev ▸ rfl,
          ?_, ?_, ?_, ?_, ?_⟩
        · intro _; rw [hat, ha0]; omega
        · intro hcon; simp [hafter] at hcon
        · intro _; rw [hat, ha0]; exact hi0
        · intro hcon; rcases hcon with hcon | hcon <;> simp [hafter] at hcon
        · intro hcon; simp [hafter] at hcon
    | implement =>
      have hieq := himpl hn
      have hlt' := hlt (by simp [hn])
      rw [tddStep_implement g e hn]
      set s' := implement_node e.state (g.implementR e.implRuns) with hs'
      have hcf : s'.config = e.state.config := implement_node_config _ _
      have hat : s'.review_attempts = e.state.review_attempts :=
        implement_node_attempts _ _
      refine ⟨?_, ?_, ?_, ?_, ?_, ?_, ?_⟩
      · show s'.config.max_review_attempts = N
        rw [hcf]; exact hcfg
      · show e.revRuns = s'.review_attempts
        rw [hat]; exact hrev
      · intro _
        show s'.review_attempts < max N 1
        rw [hat]; exact hlt'
      · intro hcon; simp at hcon
      · intro hcon; simp at hcon
      · intro _
        show e.implRuns + 1 = s'.review_attempts + 1
        rw [hat]; omega
      · intro hcon; simp at hcon
    | refactor =>
      have hieq := hrr (Or.inl hn)
      have hlt' := hlt (by simp [hn])
      rw [tddStep_refactor g e hn]
      set s' := refactor_node e.state (g.refactorR e.refacRuns) with hs'
      have hcf : s'.config = e.state.config := refactor_node_config _ _
      have hat : s'.review_attempts = e.state.review_attempts :=
        refactor_node_attempts _ _
      refine ⟨?_, ?_, ?_, ?_, ?_, ?_, ?_⟩
      · show s'.config.max_review_attempts = N
        rw [hcf]; exact hcfg
      · show e.revRuns = s'.review_attempts
        rw [hat]; exact hrev
      · intro _
        show s'.review_attempts < max N 1
        rw [hat]; exact hlt'
      · intro hcon; simp at hcon
      · intro hcon; simp at hcon
      · intro _
        show e.implRuns = s'.review_attempts + 1
        rw [hat]; exact hieq
      · intro hcon; simp at hcon
    | review =>
      have hieq := hrr (Or.inr hn)
      have hlt' := hlt (by simp [hn])
      rw [tddStep_review g e hn]
      set s' := review_node e.state (g.reviewR e.revRuns) with hs'
      have hcf : s'.config = e.state.config := review_node_config _ _
      have hat : s'.review_attempts = e.state.review_attempts + 1 :=
        review_node_attempts _ _
      cases hafter : after_review s' with
      | none =>
        refine ⟨?_, ?_, ?_, ?_, ?_, ?_, ?_⟩
        · show s'.config.max_review_attempts = N
          rw [hcf]; exact hcfg
        · show e.revRuns + 1 = s'.review_attempts
          rw [hat]; omega
        · intro hcon; simp [hafter] at hcon
        · intro hcon; simp [hafter] at hcon
        · intro hcon; simp [hafter] at hcon
        · intro hcon; rcases hcon with hcon | hcon <;> simp [hafter] at hcon
        · intro _
          refine ⟨?_, ?_, ?_⟩
          · show e.implRuns ≤ s'.review_attempts
            rw [hat]; omega
          · show s'.review_attempts ≤ max N 1
            rw [hat]; omega
          · show s'.status = some TDDStatus.SUCCESS
              ∨ s'.status = some TDDStatus.DISCARDED
              ∨ s'.status = some TDDStatus.MAX_ATTEMPTS_REACHED
            rcases review_node_end_status e.state (g.reviewR e.revRuns) hafter
              with hst | hst
            · exact Or.inl hst
            · exact Or.inr (Or.inr hst)
      | some nd' =>
        have hnd' := after_review_some hafter
        subst hnd'
        have hlt2 : s'.review_attempts < s'.config.max_review_attempts :=
          after_review_implement s' hafter
        rw [hcf, hcfg] at hlt2
        refine ⟨?_, ?_, ?_, ?_, ?_, ?_, ?_⟩
        · show s'.config.max_review_attempts = N
          rw [hcf]; exact hcfg
        · show e.revRuns + 1 = s'.review_attempts
          rw [hat]; omega
        · intro _
          show s'.review_attempts < max N 1
          omega
        · intro hcon; simp [hafter] at hcon
        · intro _
          show e.implRuns = s'.review_attempts
          rw [hat]; exact hieq
        · intro hcon; rcases hcon with hcon | hcon <;> simp [hafter] at hcon
        · intro hcon; simp [hafter] at hcon

theorem tddMeasure_step (N : Nat) (g : TDDGateway) (e : TDDExec)
    (h : tddInv N e) (hne : e.node ≠ none) :
    tddMeasure (tddStep g e) < tddMeasure e := by
  obtain ⟨hcfg, hrev, hlt, hwt, himpl, hrr, hend⟩ := h
  have hlt' := hlt hne
  have hmax1 : 1 ≤ max N 1 := Nat.le_max_right N 1
  cases hn : e.node with
  | none => exact absurd hn hne
  | some nd =>
    cases nd with
    | write_tests =>
      obtain ⟨ha0, _⟩ := hwt hn
      rw [tddStep_write_tests g e hn]
      set s' := write_tests_node e.state g.writeTests with hs'
      have hcf : s'.config = e.state.config := write_tests_node_config _ _
      have hat : s'.review_attempts = e.state.review_attempts :=
        write_tests_node_attempts _ _
      cases hafter : after_write_tests s' with
      | none =>
        show tddMeasure { e with node := none, state := s' } < tddMeasure e
        simp [tddMeasure, hn]
      | some nd' =>
        have hnd' := after_write_tests_some hafter
        subst hnd'
        show tddMeasure
            { e with node := some TDDNode.implement, state := s' }
          < tddMeasure e
        simp only [tddMeasure, hn, hcf, hat, ha0]
        omega
    | implement =>
      rw [tddStep_implement g e hn]
      set s' := implement_node e.state (g.implementR e.implRuns) with hs'
      have hcf : s'.config = e.state.config := implement_node_config _ _
      have hat : s'.review_attempts = e.state.review_attempts :=
        implement_node_attempts _ _
      show tddMeasure
          { e with
            node := some TDDNode.refactor
            state := s'
            implRuns := e.implRuns + 1 }
        < tddMeasure e
      simp only [tddMeasure, hn, hcf, hat]
      rw [hcfg]
      omega
    | refactor =>
      rw [tddStep_refactor g e hn]
      set s' := refactor_node e.state (g.refactorR e.refacRuns) with hs'
      have hcf : s'.config = e.state.config := refactor_node_config _ _
      have hat : s'.review_attempts = e.state.review_attempts :=
        refactor_node_attempts _ _
      show tddMeasure
          { e with
            node := some TDDNode.review
            state := s'
            refacRuns := e.refacRuns + 1 }
        < tddMeasure e
      simp only [tddMeasure, hn, hcf, hat]
      rw [hcfg]
      omega
    | review =>
      rw [tddStep_review g e hn]
      set s' := review_node e.state (g.reviewR e.revRuns) with hs'
      have hcf : s'.config = e.state.config := review_node_config _ _
      have hat : s'.review_attempts = e.state.review_attempts + 1 :=
        review_node_attempts _ _
      cases hafter : after_review s' with
      | none =>
        show tddMeasure
            { e with
              node := none
              state := s'
              revRuns := e.revRuns + 1 }
          < tddMeasure e
        simp only [tddMeasure, hn]
        rw [hcfg]
        omega
      | some nd' =>
        have hnd' := after_review_some hafter
        subst hnd'
        show tddMeasure
            { e with
              node := some TDDNode.implement
              state := s'
              revRuns := e.revRuns + 1 }
          < tddMeasure e
        simp only [tddMeasure, hn, hcf, hat]
        rw [hcfg]
        omega

theorem tddInv_run (N : Nat) (g : TDDGateway) :
    ∀ (n : Nat) (e : TDDExec), tddInv N e → tddInv N (tddRun g e n) := by
  intro n
  induction n with
  | zero => intro e h; exact h
  | succ n ih => intro e h; exact ih (tddStep g e) (tddInv_step N g e h)

theorem tddMeasure_zero_node (N : Nat) (e : TDDExec) (h : tddInv N e)
    (hm : tddMeasure e = 0) : e.node = none := by
  obtain ⟨hcfg, _, hlt, _, _, _, _⟩ := h
  cases hn : e.node with
  | none => rfl
  | some nd =>
    have hlt' := hlt (by simp [hn])
    exfalso
    cases nd <;> (simp only [tddMeasure, hn] at hm; rw [hcfg] at hm; omega)

theorem tddRun_of_none (g : TDDGateway) :
    ∀ (n : Nat) (e : TDDExec), e.node = none → tddRun g e n = e := by
  intro n
  induction n with
  | zero => intro e _; rfl
  | succ n ih =>
    intro e hn
    show tddRun g (tddStep g e) n = e
    rw [tddStep_of_none g e hn]
    exact ih e hn

theorem tddRun_terminates (g : TDDGateway) (N : Nat) :
    ∀ (n : Nat) (e : TDDExec), tddInv N e → tddMeasure e ≤ n →
      (tddRun g e n).node = none := by
  intro n
  induction n with
  | zero =>
    intro e hinv hm
    exact tddMeasure_zero_node N e hinv (Nat.le_zero.mp hm)
  | succ n ih =>
    intro e hinv hm
    cases hn : e.node with
    | none =>
      rw [tddRun_of_none g (n + 1) e hn]
      exact hn
    | some nd =>
      have hdec := tddMeasure_step N g e hinv (by simp [hn])
      exact ih (tddStep g e) (tddInv_step N g e hinv) (by omega)

/-! ## Claim C2 -/

/-- C2 counterexample: with `max_review_attempts = 0` and a gateway that
answers every call, the subworkflow still performs one review evaluation, so
"at most `N` review evaluations" fails at `N = 0` (the run does reach `END`
within 5 steps). -/
theorem tdd_zero_attempts_cex :
    cfgZero.max_review_attempts = 0
    ∧ (tddRun tddGatewayHappy (tddInit cfgZero) 5).node = none
    ∧ (tddRun tddGatewayHappy (tddInit cfgZero) 5).revRuns = 1
    ∧ ¬ (tddRun tddGatewayHappy (tddInit cfgZero) 5).revRuns
        ≤ cfgZero.max_review_attempts := by
  refine ⟨rfl, ?_, ?_, ?_⟩ <;> decide

/-- C2 amended: for every configuration with `max_review_attempts = N ≥ 1`
and every gateway behaviour, the subworkflow terminates — within `3N + 2`
graph steps it reaches `END` — having performed at most `N` review
evaluations and at most `N + 1` implement attempts, with a terminal status
among SUCCESS, DISCARDED and MAX_ATTEMPTS_REACHED; the attempt counter
strictly increases on every review evaluation, and the loop edge back to
implement is taken only while the counter is below `N`. -/
theorem tdd_bounded_retry_amended (cfg : TDDConfig) (g : TDDGateway)
    (hN : 1 ≤ cfg.max_review_attempts) :
    (tddRun g (tddInit cfg) (3 * cfg.max_review_attempts + 2)).node = none
    ∧ (tddRun g (tddInit cfg) (3 * cfg.max_review_attempts + 2)).revRuns
        ≤ cfg.max_review_attempts
    ∧ (tddRun g (tddInit cfg) (3 * cfg.max_review_attempts + 2)).implRuns
        ≤ cfg.max_review_attempts + 1
    ∧ ((tddRun g (tddInit cfg) (3 * cfg.max_review_attempts + 2)).state.status
          = some TDDStatus.SUCCESS
      ∨ (tddRun g (tddInit cfg)
          (3 * cfg.max_review_attempts + 2)).state.status
          = some TDDStatus.DISCARDED
      ∨ (tddRun g (tddInit cfg)
          (3 * cfg.max_review_attempts + 2)).state.status
          = some TDDStatus.MAX_ATTEMPTS_REACHED)
    ∧ (∀ (s : TDDState) (r : Option TDDReviewResult),
        (review_node s r).review_attempts = s.review_attempts + 1)
    ∧ (∀ s : TDDState, after_review s = some TDDNode.implement →
        s.review_attempts < s.config.max_review_attempts) := by
  have hmaxeq : max cfg.max_review_attempts 1 = cfg.max_review_attempts :=
    Nat.max_eq_left hN
  have hinv0 : tddInv cfg.max_review_attempts (tddInit cfg) := by
    refine ⟨rfl, rfl, ?_, ?_, ?_, ?_, ?_⟩
    · intro _
      show 0 < max cfg.max_review_attempts 1
      omega
    · intro _; exact ⟨rfl, rfl⟩
    · intro hcon; simp [tddInit] at hcon
    · intro hcon; rcases hcon with hcon | hcon <;> simp [tddInit] at hcon
    · intro hcon; simp [tddInit] at hcon
  have hm0 : tddMeasure (tddInit cfg) ≤ 3 * cfg.max_review_attempts + 2 := by
    show 3 * max cfg.max_review_attempts 1 + 2 ≤ 3 * cfg.max_review_attempts + 2
    omega
  have hfin := tddRun_terminates g cfg.max_review_attempts
    (3 * cfg.max_review_attempts + 2) (tddInit cfg) hinv0 hm0
  have hinvf := tddInv_run cfg.max_review_attempts g
    (3 * cfg.max_review_attempts + 2) (tddInit cfg) hinv0
  obtain ⟨hcfgf, hrevf, _, _, _, _, hendf⟩ := hinvf
  obtain ⟨himp, hat, hstat⟩ := hendf hfin
  refine ⟨hfin, ?_, ?_, hstat, review_node_attempts, after_review_implement⟩
  · rw [hrevf]; omega
  · omega

/-- Witness for C2's amended theorem: every bound holds at the default
configuration (`max_review_attempts = 3`) against the always-rejecting
gateway. -/
theorem tdd_bounded_retry_amended_witness :
    (tddRun tddGatewayRejecting (tddInit cfgThree)
        (3 * cfgThree.max_review_attempts + 2)).node = none
    ∧ (tddRun tddGatewayRejecting (tddInit cfgThree)
        (3 * cfgThree.max_review_attempts + 2)).revRuns
        ≤ cfgThree.max_review_attempts :=
  ⟨(tdd_bounded_retry_amended cfgThree tddGatewayRejecting (by decide)).1,
   (tdd_bounded_retry_amended cfgThree tddGatewayRejecting (by decide)).2.1⟩

/-! ## Identifier-scheme lemmas (scout phase) -/

theorem removeBUG_cons_ne (c : Char) (l : List Char) (h : c ≠ 'B') :
    removeBUG (c :: l) = c :: removeBUG l := by
  rw [removeBUG.eq_def]
  split
  · rename_i heq
    injection heq with h1 _
    exact absurd h1 h
  · rename_i heq
    injection heq with h1 h2
    subst h1; subst h2
    rfl
  · rename_i heq
    exact absurd heq (List.cons_ne_nil _ _)

theorem digit_ne_B {c : Char} (h1 : '0' ≤ c) (h2 : c ≤ '9') : c ≠ 'B' := by
  intro hc
  subst hc
  revert h2
  decide

theorem removeBUG_all_digits (l : List Char)
    (h : ∀ c ∈ l, '0' ≤ c ∧ c ≤ '9') : removeBUG l = l := by
  induction l with
  | nil => rfl
  | cons c cs ih =>
    have hc := h c (List.mem_cons_self c cs)
    rw [removeBUG_cons_ne c cs (digit_ne_B hc.1 hc.2)]
    rw [ih fun x hx => h x (List.mem_cons_of_mem c hx)]

theorem digitChar_props (d : Nat) (h : d < 10) :
    ('0' ≤ digitChar d ∧ digitChar d ≤ '9')
    ∧ (digitChar d).toNat - 48 = d := by
  interval_cases d <;> exact ⟨⟨by decide, by decide⟩, by decide⟩

theorem natDigits_digits (n : Nat) :
    ∀ c ∈ natDigits n, '0' ≤ c ∧ c ≤ '9' := by
  induction n using Nat.strong_induction_on with
  | _ n ih =>
    by_cases h : n < 10
    · rw [natDigits, dif_pos h]
      intro c hc
      rw [List.mem_singleton] at hc
      subst hc
      exact (digitChar_props n h).1
    · rw [natDigits, dif_neg h]
      intro c hc
      rcases List.mem_append.mp hc with hc | hc
      · exact ih (n / 10) (Nat.div_lt_self (by omega) (by omega)) c hc
      · rw [List.mem_singleton] at hc
        subst hc
        exact (digitChar_props (n % 10) (Nat.mod_lt n (by omega))).1

theorem natDigits_ne_nil (n : Nat) : natDigits n ≠ [] := by
  by_cases h : n < 10
  · rw [natDigits, dif_pos h]
    exact List.cons_ne_nil _ _
  · rw [natDigits, dif_neg h]
    exact List.append_ne_nil_of_right_ne_nil _ (List.cons_ne_nil _ _)

theorem parseDigitsAux_append (xs ys : List Char) :
    ∀ acc : Nat, parseDigitsAux acc (xs ++ ys) =
      match parseDigitsAux acc xs with
      | none => none
      | some m => parseDigitsAux m ys := by
  induction xs with
  | nil => intro acc; rfl
  | cons c cs ih =>
    intro acc
    by_cases hc : '0' ≤ c ∧ c ≤ '9'
    · rw [List.cons_append]
      rw [show parseDigitsAux acc (c :: (cs ++ ys))
          = parseDigitsAux (acc * 10 + (c.toNat - 48)) (cs ++ ys) by
        simp [parseDigitsAux, hc]]
      rw [show parseDigitsAux acc (c :: cs)
          = parseDigitsAux (acc * 10 + (c.toNat - 48)) cs by
        simp [parseDigitsAux, hc]]
      exact ih _
    · rw [List.cons_append]
      rw [show parseDigitsAux acc (c :: (cs ++ ys)) = none by
        simp [parseDigitsAux, hc]]
      rw [show parseDigitsAux acc (c :: cs) = none by
        simp [parseDigitsAux, hc]]

theorem parseDigitsAux_natDigits (n : Nat) :
    parseDigitsAux 0 (natDigits n) = some n := by
  induction n using Nat.strong_induction_on with
  | _ n ih =>
    by_cases h : n < 10
    · have hp := digitChar_props n h
      rw [natDigits, dif_pos h]
      simp [parseDigitsAux, hp.1.1, hp.1.2, hp.2]
    · have hp := digitChar_props (n % 10) (Nat.mod_lt n (by omega))
      rw [natDigits, dif_neg h]
      rw [parseDigitsAux_append]
      rw [ih (n / 10) (Nat.div_lt_self (by omega) (by omega))]
      simp [parseDigitsAux, hp.1.1, hp.1.2, hp.2]
      omega

theorem parseDigitsAux_replicate_zero (z : Nat) :
    parseDigitsAux 0 (List.replicate z '0') = some 0 := by
  induction z with
  | zero => rfl
  | succ z ih =>
    rw [List.replicate_succ]
    simpa [parseDigitsAux] using ih

theorem parseDigits_of_ne_nil (l : List Char) (h : l ≠ []) :
    parseDigits l = parseDigitsAux 0 l := by
  cases l with
  | nil => exact absurd rfl h
  | cons c cs => rfl

theorem parse_pad3_natDigits (n : Nat) :
    parseDigits (pad3 (natDigits n)) = some n := by
  unfold pad3
  by_cases h : (natDigits n).length < 3
  · rw [if_pos h]
    rw [parseDigits_of_ne_nil _
      (List.append_ne_nil_of_right_ne_nil _ (natDigits_ne_nil n))]
    rw [parseDigitsAux_append]
    rw [parseDigitsAux_replicate_zero]
    exact parseDigitsAux_natDigits n
  · rw [if_neg h]
    rw [parseDigits_of_ne_nil _ (natDigits_ne_nil n)]
    exact parseDigitsAux_natDigits n

theorem pad3_natDigits_digits (n : Nat) :
    ∀ c ∈ pad3 (natDigits n), '0' ≤ c ∧ c ≤ '9' := by
  unfold pad3
  by_cases h : (natDigits n).length < 3 <;> simp only [h, if_true, if_false]
  · intro c hc
    rcases List.mem_append.mp hc with hc | hc
    · rw [List.eq_of_mem_replicate hc]
      exact ⟨le_refl _, by decide⟩
    · exact natDigits_digits n c hc
  · exact natDigits_digits n

theorem pyKeyNum_mkBugId (n : Nat) : pyKeyNum (mkBugId n) = some n := by
  show parseDigits (removeBUG
    ('B' :: 'U' :: 'G' :: '-' :: pad3 (natDigits n))) = some n
  rw [show removeBUG ('B' :: 'U' :: 'G' :: '-' :: pad3 (natDigits n))
      = removeBUG (pad3 (natDigits n)) from rfl]
  rw [removeBUG_all_digits _ (pad3_natDigits_digits n)]
  exact parse_pad3_natDigits n

theorem mkBugId_inj {a b : Nat} (h : mkBugId a = mkBugId b) : a = b := by
  have := congrArg pyKeyNum h
  rw [pyKeyNum_mkBugId, pyKeyNum_mkBugId] at this
  injection this

theorem foldl_max_init_le (l : List Nat) :
    ∀ acc : Nat, acc ≤ l.foldl max acc := by
  induction l with
  | nil => intro acc; exact le_refl acc
  | cons x xs ih =>
    intro acc
    exact le_trans (Nat.le_max_left acc x) (ih (max acc x))

theorem le_maxOrDefault {m : Nat} {l : List Nat} (h : m ∈ l) :
    m ≤ maxOrDefault l := by
  unfold maxOrDefault
  generalize 0 = acc
  induction l generalizing acc with
  | nil => simp at h
  | cons x xs ih =>
    rcases List.mem_cons.mp h with heq | hmem
    · subst heq
      exact le_trans (Nat.le_max_right acc m) (foldl_max_init_le xs _)
    · exact ih hmem _

theorem mapParse_mem {ks : List String} {ns : List Nat}
    (h : mapParse ks = some ns) :
    ∀ k ∈ ks, ∀ m : Nat, pyKeyNum k = some m → m ∈ ns := by
  induction ks generalizing ns with
  | nil => intro k hk; simp at hk
  | cons k0 ks ih =>
    intro k hk m hm
    rw [mapParse] at h
    cases hk0 : pyKeyNum k0 with
    | none => rw [hk0] at h; exact absurd h (by simp)
    | some n0 =>
      rw [hk0] at h
      cases hrest : mapParse ks with
      | none => rw [hrest] at h; exact absurd h (by simp)
      | some ns' =>
        rw [hrest] at h
        simp only [Option.map_some] at h
        injection h with h
        subst h
        rcases List.mem_cons.mp hk with heq | hmem
        · subst heq
          rw [hk0] at hm
          injection hm with hm
          subst hm
          exact List.mem_cons_self _ _
        · exact List.mem_cons_of_mem _ (ih hrest k hmem m hm)

theorem mapParse_isSome {ks : List String}
    (h : ∀ k ∈ ks, (pyKeyNum k).isSome) : ∃ ns, mapParse ks = some ns := by
  induction ks with
  | nil => exact ⟨[], rfl⟩
  | cons k0 ks ih =>
    obtain ⟨ns, hns⟩ := ih fun k hk => h k (List.mem_cons_of_mem k0 hk)
    have hk0 := h k0 (List.mem_cons_self k0 ks)
    cases hk0e : pyKeyNum k0 with
    | none => rw [hk0e] at hk0; simp at hk0
    | some n0 => exact ⟨n0 :: ns, by rw [mapParse, hk0e, hns]; rfl⟩

theorem scoutLoop_spec (bugs : List (String × Bug)) (now : Nat)
    (ns : List Nat) (hns : mapParse (dkeys bugs) = some ns) :
    ∀ (sbs : List ScoutBug) (acc : List (String × Bug)),
      dkeys acc = (List.range acc.length).map
        (fun j => mkBugId (maxOrDefault ns + 1 + j)) →
      ∃ res, scoutLoop bugs now acc sbs = some res
        ∧ dkeys res = (List.range (acc.length + sbs.length)).map
            (fun j => mkBugId (maxOrDefault ns + 1 + j)) := by
  intro sbs
  induction sbs with
  | nil =>
    intro acc hkeys
    exact ⟨acc, rfl, by simpa using hkeys⟩
  | cons sb rest ih =>
    intro acc hkeys
    rw [scoutLoop, hns]
    set c := acc.length with hc
    set bid := mkBugId (maxOrDefault ns + 1 + c) with hbid
    have hfresh : bid ∉ dkeys acc := by
      rw [hkeys]
      intro hmem
      obtain ⟨j, hj, hjeq⟩ := List.mem_map.mp hmem
      have : maxOrDefault ns + 1 + j = maxOrDefault ns + 1 + c :=
        mkBugId_inj hjeq
      have hjc : j = c := by omega
      rw [List.mem_range] at hj
      omega
    have hnone : dlookup bid acc = none := (dlookup_eq_none_iff _ _).mpr hfresh
    have hins : pyInsert acc bid (mkScoutedBug bid sb now)
        = acc ++ [(bid, mkScoutedBug bid sb now)] := by
      simp [pyInsert, hnone]
    show ∃ res,
        scoutLoop bugs now (pyInsert acc bid (mkScoutedBug bid sb now)) rest
          = some res
        ∧ dkeys res = (List.range (c + (sb :: rest).length)).map
            (fun j => mkBugId (maxOrDefault ns + 1 + j))
    rw [hins]
    have hlen : (acc ++ [(bid, mkScoutedBug bid sb now)]).length = c + 1 := by
      simp [hc]
    have hkeys' : dkeys (acc ++ [(bid, mkScoutedBug bid sb now)])
        = (List.range (c + 1)).map
            (fun j => mkBugId (maxOrDefault ns + 1 + j)) := by
      rw [dkeys, List.map_append, ← dkeys, hkeys, List.range_succ,
        List.map_append]
      rfl
    obtain ⟨res, hres, hreskeys⟩ :=
      ih (acc ++ [(bid, mkScoutedBug bid sb now)]) (by rw [hlen]; exact hkeys')
    refine ⟨res, hres, ?_⟩
    have hlc : c + (sb :: rest).length = c + 1 + rest.length := by
      rw [List.length_cons]
      omega
    rw [hreskeys, hlen, hlc]

/-! ## Claim C9 -/

/-- C9: under the precondition that every existing key parses as `BUG-`
followed by an integer, every identifier the scout phase assigns has the form
`BUG-NNN` (`mkBugId`, i.e. `f"BUG-{n:03}"`), its numeric part is strictly
greater than the numeric part of every key already in the store, and the
identifiers assigned within one batch are pairwise distinct. -/
theorem scout_id_assignment (s : BugHunterState) (now : Nat) (r : ScoutResult)
    (hkeys : ∀ k ∈ dkeys s.bugs, (pyKeyNum k).isSome)
    (e : String) (rest : List String) (hep : s.entrypoints = e :: rest) :
    ∃ u new_bugs,
      scout_node s now (some r) = some u
      ∧ u.bugs = some new_bugs
      ∧ u.entrypoints = some rest
      ∧ (∀ p ∈ new_bugs, ∃ n : Nat,
          p.1 = mkBugId n
          ∧ pyKeyNum p.1 = some n
          ∧ ∀ k ∈ dkeys s.bugs, ∀ m : Nat, pyKeyNum k = some m → m < n)
      ∧ NodupKeys new_bugs := by
  obtain ⟨ns, hns⟩ := mapParse_isSome hkeys
  obtain ⟨res, hres, hreskeys⟩ := scoutLoop_spec s.bugs now ns hns r.bugs []
    (by simp [dkeys])
  refine ⟨{ messages := [r.exploration_summary]
            bugs := some res
            entrypoints := some rest },
    res, ?_, rfl, rfl, ?_, ?_⟩
  · simp only [scout_node, hep, hres]
  · intro p hp
    have hpk : p.1 ∈ dkeys res := List.mem_map_of_mem Prod.fst hp
    rw [hreskeys] at hpk
    obtain ⟨j, _, hjeq⟩ := List.mem_map.mp hpk
    refine ⟨maxOrDefault ns + 1 + j, hjeq.symm, ?_, ?_⟩
    · rw [← hjeq]
      exact pyKeyNum_mkBugId _
    · intro k hk m hm
      have hmem := mapParse_mem hns k hk m hm
      have := le_maxOrDefault hmem
      omega
  · rw [NodupKeys, hreskeys]
    refine List.Nodup.map ?_ (List.nodup_range _)
    intro a b hab
    have := mkBugId_inj hab
    omega

/-- Witness for C9 at a concrete snapshot (one existing key `BUG-001`, a
two-finding scout batch). -/
theorem scout_id_assignment_witness :
    ∃ u new_bugs,
      scout_node stateScout 7 (some scoutResultTwo) = some u
      ∧ u.bugs = some new_bugs
      ∧ u.entrypoints = some ["b.go"]
      ∧ (∀ p ∈ new_bugs, ∃ n : Nat,
          p.1 = mkBugId n
          ∧ pyKeyNum p.1 = some n
          ∧ ∀ k ∈ dkeys stateScout.bugs, ∀ m : Nat,
              pyKeyNum k = some m → m < n)
      ∧ NodupKeys new_bugs :=
  scout_id_assignment stateScout 7 scoutResultTwo (by decide) "a.go" ["b.go"]
    rfl

end CodeAgent
